import Mathlib

/-!
# Verification of the COLORS palette generator

A shallow embedding in Lean 4 of `generate_palette.py`, the single source
file of the repository: a batch tool that parses `colors.txt` and derives
CSS, HTML, Markdown, Tailwind and image artifacts from each base color.

Modelling conventions:
* Python floats are modelled by `ℚ` (the arithmetic in the program is
  `+ - * /`, `min`/`max`, `%` and truncation to `int`, all exact on `ℚ`).
* Python's `colorsys.rgb_to_hls` / `colorsys.hls_to_rgb` are embedded from
  the CPython source, since the program's shade algorithm calls them.
* Fallible code (hex parsing of an arbitrary string, which raises
  `ValueError` in Python) returns `Option`.
* Strings are Lean `String`s; character-level work happens on `List Char`.
-/

namespace Colors

/-! ## Definitions: the embedding of `generate_palette.py` -/

/-- Python `int(q)` for a float value `q`: truncation toward zero. -/
def pyTrunc (q : ℚ) : ℤ := if q < 0 then -((-q).floor) else q.floor

/-- Python `q % 1.0` for a float `q`: the fractional part `q - ⌊q⌋`
(Python's `%` takes the sign of the divisor, here positive). -/
def pyMod1 (q : ℚ) : ℚ := q - q.floor

/-- Python whitespace for `str.strip()` and the regex class `\s`
(ASCII range; the inputs of interest are ASCII). -/
def isPySpace (c : Char) : Bool :=
  c = ' ' || c = '\t' || c = '\n' || c = '\x0d' || c = '\x0b' || c = '\x0c'

/-- Right-trim of Python `str.strip()` on a character list. -/
def rstripList (cs : List Char) : List Char :=
  (cs.reverse.dropWhile isPySpace).reverse

/-- Python `str.strip()` on a character list: drop whitespace at both ends. -/
def pyStripList (cs : List Char) : List Char :=
  rstripList (cs.dropWhile isPySpace)

/-- Python `str.strip()`. -/
def pyStrip (s : String) : String := ⟨pyStripList s.toList⟩

/-- Python `str.lower()` on one character (ASCII range; color names and hex
digits in this program are ASCII). -/
def pyLowerChar (c : Char) : Char :=
  if 'A' ≤ c ∧ c ≤ 'Z' then Char.ofNat (c.toNat + 32) else c

/-- Python `str.lower()`. -/
def pyLower (s : String) : String := ⟨s.toList.map pyLowerChar⟩

/-- Python `str.upper()` on one character (ASCII range). -/
def pyUpperChar (c : Char) : Char :=
  if 'a' ≤ c ∧ c ≤ 'z' then Char.ofNat (c.toNat - 32) else c

/-- Python `str.upper()`. -/
def pyUpper (s : String) : String := ⟨s.toList.map pyUpperChar⟩

/-- The characters matched by the regex class `[0-9a-fA-F]`, which are also
exactly the digits Python's `int(·, 16)` accepts inside a hex literal. -/
def isHexChar (c : Char) : Bool :=
  ('0' ≤ c ∧ c ≤ '9') || ('a' ≤ c ∧ c ≤ 'f') || ('A' ≤ c ∧ c ≤ 'F')

/-- The value of one hex digit (junk `0` outside `[0-9a-fA-F]`; every use
site guards with `isHexChar`). -/
def hexCharVal (c : Char) : ℕ :=
  if '0' ≤ c ∧ c ≤ '9' then c.toNat - '0'.toNat
  else if 'a' ≤ c ∧ c ≤ 'f' then c.toNat - 'a'.toNat + 10
  else if 'A' ≤ c ∧ c ≤ 'F' then c.toNat - 'A'.toNat + 10
  else 0

/-- Python `int(s, 16)` restricted to the shapes this program feeds it: a
non-empty string of bare hex digits parses to its value, anything else is a
`ValueError`, i.e. `none`. (Python also tolerates surrounding whitespace, a
sign, a `0x` prefix and `_` separators; no call site of the program can pass
those, so they are outside the model.) -/
def pyIntHex (s : String) : Option ℕ :=
  let cs := s.toList
  if cs ≠ [] ∧ cs.all isHexChar then
    some (cs.foldl (fun a c => 16 * a + hexCharVal c) 0)
  else none

/-- Python `str.lstrip('#')`: drop every leading `'#'`. -/
def lstripHash (s : String) : String := ⟨s.toList.dropWhile (· = '#')⟩

/-- `hex_to_rgb`: strip `'#'`, then parse the slices `[0:2]`, `[2:4]`,
`[4:6]` with `int(·, 16)`. `none` models the `ValueError` Python raises on a
malformed slice. -/
def hex_to_rgb (hex_color : String) : Option (ℕ × ℕ × ℕ) := do
  let h := lstripHash hex_color
  let cs := h.toList
  let r ← pyIntHex ⟨cs.take 2⟩
  let g ← pyIntHex ⟨(cs.drop 2).take 2⟩
  let b ← pyIntHex ⟨(cs.drop 4).take 2⟩
  some (r, g, b)

/-- The lowercase hex digit of a value `< 16`, as Python `%x` prints it. -/
def hexDigitLower (n : ℕ) : Char :=
  if n < 10 then Char.ofNat ('0'.toNat + n) else Char.ofNat ('a'.toNat + n - 10)

/-- Python `f"{n:02x}"` for the byte values `0 ≤ n ≤ 255` that reach it. -/
def hexByte (n : ℕ) : String := ⟨[hexDigitLower (n / 16), hexDigitLower (n % 16)]⟩

/-- `rgb_to_hex`: `f"#{r:02x}{g:02x}{b:02x}"`. -/
def rgb_to_hex (rgb : ℕ × ℕ × ℕ) : String :=
  "#" ++ hexByte rgb.1 ++ hexByte rgb.2.1 ++ hexByte rgb.2.2

/-- CPython `colorsys.rgb_to_hls`: returns `(h, l, s)` with all components
in `[0, 1]` for inputs in `[0, 1]`. -/
def rgb_to_hls (r g b : ℚ) : ℚ × ℚ × ℚ :=
  let maxc := max r (max g b)
  let minc := min r (min g b)
  let l := (minc + maxc) / 2
  if minc = maxc then (0, l, 0)
  else
    let s := if l ≤ 1/2 then (maxc - minc) / (maxc + minc)
             else (maxc - minc) / (2 - maxc - minc)
    let rc := (maxc - r) / (maxc - minc)
    let gc := (maxc - g) / (maxc - minc)
    let bc := (maxc - b) / (maxc - minc)
    let h := if r = maxc then bc - gc
             else if g = maxc then 2 + rc - bc
             else 4 + gc - rc
    (pyMod1 (h / 6), l, s)

/-- CPython `colorsys._v`, the helper of `hls_to_rgb`. -/
def hls_v (m1 m2 hue : ℚ) : ℚ :=
  let hue := pyMod1 hue
  if hue < 1/6 then m1 + (m2 - m1) * hue * 6
  else if hue < 1/2 then m2
  else if hue < 2/3 then m1 + (m2 - m1) * (2/3 - hue) * 6
  else m1

/-- The local `m2` of CPython `colorsys.hls_to_rgb`. -/
def hls_m2 (l s : ℚ) : ℚ := if l ≤ 1/2 then l * (1 + s) else l + s - l * s

/-- The local `m1` of CPython `colorsys.hls_to_rgb`. -/
def hls_m1 (l s : ℚ) : ℚ := 2 * l - hls_m2 l s

/-- CPython `colorsys.hls_to_rgb`. -/
def hls_to_rgb (h l s : ℚ) : ℚ × ℚ × ℚ :=
  if s = 0 then (l, l, l)
  else (hls_v (hls_m1 l s) (hls_m2 l s) (h + 1/3), hls_v (hls_m1 l s) (hls_m2 l s) h,
        hls_v (hls_m1 l s) (hls_m2 l s) (h - 1/3))

/-- `hex_to_hsl`: hex → rgb → `rgb_to_hls`, rescaled to
`(h·360, s·100, l·100)` — note the program returns saturation before
lightness, so lightness is the third component. -/
def hex_to_hsl (hex_color : String) : Option (ℚ × ℚ × ℚ) :=
  (hex_to_rgb hex_color).map fun rgb =>
    let r := (rgb.1 : ℚ) / 255
    let g := (rgb.2.1 : ℚ) / 255
    let b := (rgb.2.2 : ℚ) / 255
    let hls := rgb_to_hls r g b
    (hls.1 * 360, hls.2.2 * 100, hls.2.1 * 100)

/-- `int(x * 255)` applied to one channel of an `hls_to_rgb` result
(non-negative there, so a plain truncation). -/
def quantChannel (x : ℚ) : ℕ := (pyTrunc (x * 255)).toNat

/-- The inner body shared by both shade loops: convert the chosen lightness
back to RGB at the base hue/saturation, truncate the channels to bytes and
format them with `rgb_to_hex`. -/
def shadeOfLightness (h s lightness : ℚ) : String :=
  let rgb := hls_to_rgb h lightness s
  rgb_to_hex (quantChannel rgb.1, quantChannel rgb.2.1, quantChannel rgb.2.2)

/-- Lightness of a lighter shade (loop at source lines 59-69):
interpolate from white toward the base and clamp to `[base_l+0.01, 0.99]`. -/
def lighterLightness (base_l ratio : ℚ) : ℚ :=
  min 0.99 (max (base_l + 0.01) (1 - (1 - base_l) * ratio))

/-- Lightness of a darker shade (loop at source lines 79-89):
interpolate from the base toward black and clamp to `[0.01, base_l-0.01]`. -/
def darkerLightness (base_l ratio : ℚ) : ℚ :=
  max 0.01 (min (base_l - 0.01) (base_l * (1 - ratio)))

/-- `generate_shades`: the ten-step ramp, as the ordered association list
the final comprehension (source line 92) produces, with the `lighter_ratios`
and `darker_ratios` of the source. Shade `'500'` is the base hex itself. -/
def generate_shades (hex_color : String) : Option (List (String × String)) :=
  (hex_to_rgb hex_color).map fun rgb =>
    let r := (rgb.1 : ℚ) / 255
    let g := (rgb.2.1 : ℚ) / 255
    let b := (rgb.2.2 : ℚ) / 255
    let hls := rgb_to_hls r g b
    let h := hls.1
    let base_l := hls.2.1
    let base_s := hls.2.2
    [("50", shadeOfLightness h base_s (lighterLightness base_l 0.05)),
     ("100", shadeOfLightness h base_s (lighterLightness base_l 0.15)),
     ("200", shadeOfLightness h base_s (lighterLightness base_l 0.30)),
     ("300", shadeOfLightness h base_s (lighterLightness base_l 0.50)),
     ("400", shadeOfLightness h base_s (lighterLightness base_l 0.70)),
     ("500", hex_color),
     ("600", shadeOfLightness h base_s (darkerLightness base_l 0.30)),
     ("700", shadeOfLightness h base_s (darkerLightness base_l 0.50)),
     ("800", shadeOfLightness h base_s (darkerLightness base_l 0.70)),
     ("900", shadeOfLightness h base_s (darkerLightness base_l 0.85))]

/-- The lightness a shade hex denotes: the third component of `hex_to_hsl`
(scale `0`-`100`), with `0` for an unparsable string (never hit by the
theorems, which establish parsability first). -/
def lightnessOfHex (s : String) : ℚ :=
  ((hex_to_hsl s).map fun hsl => hsl.2.2).getD 0

/-- `get_text_color`: white text on dark backgrounds (luminance `< 0.5`),
black otherwise. -/
def get_text_color (hex_color : String) : Option String :=
  (hex_to_rgb hex_color).map fun rgb =>
    let r := (rgb.1 : ℚ) / 255
    let g := (rgb.2.1 : ℚ) / 255
    let b := (rgb.2.2 : ℚ) / 255
    let luminance := 0.299 * r + 0.587 * g + 0.114 * b
    if luminance < 0.5 then "#FFFFFF" else "#000000"

/-- A lowercase hex digit, `[0-9a-f]`. -/
def lowerHexChar (c : Char) : Bool :=
  ('0' ≤ c ∧ c ≤ '9') || ('a' ≤ c ∧ c ≤ 'f')

/-- The canonical hex string format of the spec's data model:
`'#'` followed by exactly six lowercase hex digits. -/
def IsValidHexString (s : String) : Prop :=
  ∃ cs, s.toList = '#' :: cs ∧ cs.length = 6 ∧ ∀ c ∈ cs, lowerHexChar c = true

/-- The spec's screen luminance: `0.299 r + 0.587 g + 0.114 b` with the
channels scaled into `[0, 1]`. -/
def specLuminance (r g b : ℕ) : ℚ :=
  0.299 * ((r : ℚ) / 255) + 0.587 * ((g : ℚ) / 255) + 0.114 * ((b : ℚ) / 255)

/-- `cols = min(3, num_colors)` (source line 735). -/
def paletteGridCols (n : ℕ) : ℕ := min 3 n

/-- `rows = (num_colors + cols - 1) // cols` (source line 736). -/
def paletteGridRows (n : ℕ) : ℕ := (n + paletteGridCols n - 1) / paletteGridCols n

/-- The grid cell of swatch `idx`: `row = idx // cols`, `col = idx % cols`
(source lines 782-783). -/
def swatchCell (n idx : ℕ) : ℕ × ℕ := (idx / paletteGridCols n, idx % paletteGridCols n)

/-- The pixel origin of swatch `idx`: `x = col * swatch_width`,
`y = row * swatch_height` with `swatch_width = swatch_height = 200 * 2`
(source lines 739-741, 785-786). -/
def swatchOrigin (n idx : ℕ) : ℕ × ℕ :=
  ((swatchCell n idx).2 * (200 * 2), (swatchCell n idx).1 * (200 * 2))

/-- Line splitting for `for line in f`: the content split at `'\n'`
(Python's iteration keeps each `'\n'` on its line; the parser strips every
line first, so splitting the terminators off instead is equivalent). -/
def splitNewlines : List Char → List Char → List (List Char)
  | [], cur => [cur.reverse]
  | '\n' :: rest, cur => cur.reverse :: splitNewlines rest []
  | c :: rest, cur => splitNewlines rest (c :: cur)

/-- The record type the parser produces, one per matching line. -/
structure ColorEntry where
  hex : String
  name : String
  rgb : ℕ × ℕ × ℕ
  hsl : ℚ × ℚ × ℚ
deriving DecidableEq

/-- The regex `([0-9a-fA-F]{6})\s*#\s*(.+)` of `re.match`, resolved
deterministically: it matches a stripped line exactly when the line starts
with six hex digits, followed (after optional whitespace) by `'#'` and at
least one further character. Returned: group 1 (the six digits) and the
whole tail after the `'#'` separator. Greedy `\s*` plus `.+` with
backtracking make group 2 the tail minus some prefix of its whitespace, so
`group(2).strip()` — the only use — equals the strip of the returned tail.
(`.` not matching `'\n'` is invisible here: lines produced by iterating a
file never contain an interior newline.) -/
def matchColorLine (cs : List Char) : Option (List Char × List Char) :=
  if 6 ≤ cs.length ∧ (cs.take 6).all isHexChar then
    match (cs.drop 6).dropWhile isPySpace with
    | '#' :: tail => if tail ≠ [] then some (cs.take 6, tail) else none
    | _ => none
  else none

/-- One iteration of the parser loop: strip the line, skip it when empty or
a `'#'` comment, otherwise match the record pattern and build the entry
(`hex` is `'#'` plus the lowercased digits; `rgb`/`hsl` are derived from it;
the derivations cannot fail on a matched line, `none` models the
unreachable exception path). -/
def lineRecord (line : String) : Option ColorEntry :=
  let s := pyStripList line.toList
  if s.isEmpty || s.head? = some '#' then none
  else
    match matchColorLine s with
    | none => none
    | some (digits, tail) =>
      let hex_code : String := "#" ++ ⟨digits.map pyLowerChar⟩
      match hex_to_rgb hex_code, hex_to_hsl hex_code with
      | some rgb, some hsl => some ⟨hex_code, ⟨pyStripList tail⟩, rgb, hsl⟩
      | _, _ => none

/-- The parser loop with its `colors.append` accumulator. -/
def parseLines : List String → List ColorEntry → List ColorEntry
  | [], acc => acc
  | l :: ls, acc =>
    match lineRecord l with
    | none => parseLines ls acc
    | some e => parseLines ls (acc ++ [e])

/-- `parse_colors_file` on the content of `colors.txt`. -/
def parse_colors_file (content : String) : List ColorEntry :=
  parseLines ((splitNewlines content.toList []).map fun cs => (⟨cs⟩ : String)) []

/-- The `(h, l, s)` triple `generate_shades` derives from a parsed byte
triple (its local variables `h`, `base_l`, `base_s`). -/
def baseHls (r g b : ℕ) : ℚ × ℚ × ℚ :=
  rgb_to_hls ((r : ℚ) / 255) ((g : ℚ) / 255) ((b : ℚ) / 255)

/-- The slug of a display name: `name.lower().replace(' ', '-')`
(character-wise, since the replaced pattern is a single character). -/
def slugOf (name : String) : String :=
  ⟨name.toList.map fun c => if pyLowerChar c = ' ' then '-' else pyLowerChar c⟩

/-- Python `f"{q:.1f}"` for the non-negative hue/saturation/lightness values
that reach it: one rounded decimal. (Python rounds the nearest binary
double; on this exact-rational model we round half up — the two agree
except at exact representation ties, which no claim touches.) -/
def formatFixed1 (q : ℚ) : String :=
  let n : ℤ := (q * 10 + 1/2).floor
  toString (n / 10) ++ "." ++ toString (n % 10)

/-- The fixed head of the HTML preview page (source lines 150-375). -/
def htmlHead : String :=
  "<!DOCTYPE html>\n"
  ++ "<html lang=\"en\">\n"
  ++ "<head>\n"
  ++ "    <meta charset=\"UTF-8\">\n"
  ++ "    <meta name=\"viewport\" content=\"width=device-width, initial-scale=1.0\">\n"
  ++ "    <title>yuki colors</title>\n"
  ++ "    <link rel=\"stylesheet\" href=\"palette.css\">\n"
  ++ "    <style>\n"
  ++ "        * \x7b\n"
  ++ "            margin: 0;\n"
  ++ "            padding: 0;\n"
  ++ "            box-sizing: border-box;\n"
  ++ "        \x7d\n"
  ++ "        \n"
  ++ "        body \x7b\n"
  ++ "            font-family: 'SF Mono', 'Monaco', 'Inconsolata', 'Fira Code', 'Droid Sans Mono', 'Source Code Pro', 'Courier New', monospace;\n"
  ++ "            background: #0A0A0A;\n"
  ++ "            color: #fff;\n"
  ++ "            padding: 0;\n"
  ++ "            overflow-x: hidden;\n"
  ++ "        \x7d\n"
  ++ "        \n"
  ++ "        .header \x7b\n"
  ++ "            padding: 0.5rem 1rem;\n"
  ++ "            background: #0A0A0A;\n"
  ++ "            border-bottom: 1px solid #1a1a1a;\n"
  ++ "            position: sticky;\n"
  ++ "            top: 0;\n"
  ++ "            z-index: 100;\n"
  ++ "        \x7d\n"
  ++ "        \n"
  ++ "        .header h1 \x7b\n"
  ++ "            font-size: 1rem;\n"
  ++ "            font-weight: normal;\n"
  ++ "            letter-spacing: 2px;\n"
  ++ "            text-transform: uppercase;\n"
  ++ "            color: #888;\n"
  ++ "        \x7d\n"
  ++ "        \n"
  ++ "        .palette-grid \x7b\n"
  ++ "            display: grid;\n"
  ++ "            grid-template-columns: repeat(auto-fit, minmax(200px, 1fr));\n"
  ++ "            gap: 0;\n"
  ++ "        \x7d\n"
  ++ "        \n"
  ++ "        .color-block \x7b\n"
  ++ "            position: relative;\n"
  ++ "            aspect-ratio: 1;\n"
  ++ "            display: flex;\n"
  ++ "            flex-direction: column;\n"
  ++ "            justify-content: center;\n"
  ++ "            align-items: center;\n"
  ++ "            cursor: pointer;\n"
  ++ "            transition: transform 0.1s, z-index 0.1s;\n"
  ++ "            border: none;\n"
  ++ "        \x7d\n"
  ++ "        \n"
  ++ "        .color-block:hover:not(.expanded) \x7b\n"
  ++ "            transform: scale(1.05);\n"
  ++ "            z-index: 10;\n"
  ++ "            box-shadow: 0 0 20px rgba(255,255,255,0.1);\n"
  ++ "        \x7d\n"
  ++ "        \n"
  ++ "        .color-block.expanded \x7b\n"
  ++ "            z-index: 15;\n"
  ++ "        \x7d\n"
  ++ "        \n"
  ++ "        .color-name \x7b\n"
  ++ "            font-size: 0.7rem;\n"
  ++ "            font-weight: bold;\n"
  ++ "            text-transform: uppercase;\n"
  ++ "            letter-spacing: 1px;\n"
  ++ "            margin-bottom: 0.3rem;\n"
  ++ "            text-shadow: 0 0 10px rgba(0,0,0,0.8);\n"
  ++ "        \x7d\n"
  ++ "        \n"
  ++ "        .color-hex \x7b\n"
  ++ "            font-size: 0.65rem;\n"
  ++ "            font-family: 'SF Mono', 'Monaco', 'Inconsolata', 'Fira Code', 'Droid Sans Mono', 'Source Code Pro', 'Courier New', monospace;\n"
  ++ "            text-shadow: 0 0 10px rgba(0,0,0,0.8);\n"
  ++ "        \x7d\n"
  ++ "        \n"
  ++ "        .shades-backdrop \x7b\n"
  ++ "            display: none;\n"
  ++ "            position: fixed;\n"
  ++ "            top: 0;\n"
  ++ "            left: 0;\n"
  ++ "            right: 0;\n"
  ++ "            bottom: 0;\n"
  ++ "            background: rgba(0, 0, 0, 0.7);\n"
  ++ "            z-index: 19;\n"
  ++ "            opacity: 0;\n"
  ++ "            transition: opacity 0.3s ease-out;\n"
  ++ "        \x7d\n"
  ++ "        \n"
  ++ "        .color-block.expanded .shades-backdrop \x7b\n"
  ++ "            display: block;\n"
  ++ "            opacity: 1;\n"
  ++ "        \x7d\n"
  ++ "        \n"
  ++ "        .shades-container \x7b\n"
  ++ "            display: none;\n"
  ++ "            position: fixed;\n"
  ++ "            top: auto;\n"
  ++ "            left: 0;\n"
  ++ "            right: 0;\n"
  ++ "            width: 100vw;\n"
  ++ "            background: #0A0A0A;\n"
  ++ "            border-top: 1px solid #1a1a1a;\n"
  ++ "            border-bottom: 1px solid #1a1a1a;\n"
  ++ "            z-index: 20;\n"
  ++ "            grid-template-columns: repeat(10, 1fr);\n"
  ++ "            gap: 0;\n"
  ++ "            padding: 0.5rem 0;\n"
  ++ "            max-width: 100%;\n"
  ++ "            opacity: 0;\n"
  ++ "            transform: translateY(-20px);\n"
  ++ "            transition: opacity 0.3s ease-out, transform 0.3s ease-out;\n"
  ++ "        \x7d\n"
  ++ "        \n"
  ++ "        .color-block.expanded .shades-container \x7b\n"
  ++ "            display: grid;\n"
  ++ "            opacity: 1;\n"
  ++ "            transform: translateY(0);\n"
  ++ "        \x7d\n"
  ++ "        \n"
  ++ "        .palette-grid \x7b\n"
  ++ "            position: relative;\n"
  ++ "        \x7d\n"
  ++ "        \n"
  ++ "        .shade-block \x7b\n"
  ++ "            aspect-ratio: 1;\n"
  ++ "            display: flex;\n"
  ++ "            flex-direction: column;\n"
  ++ "            justify-content: center;\n"
  ++ "            align-items: center;\n"
  ++ "            cursor: pointer;\n"
  ++ "            border: none;\n"
  ++ "            min-height: 100px;\n"
  ++ "        \x7d\n"
  ++ "        \n"
  ++ "        .shade-label \x7b\n"
  ++ "            font-size: 0.6rem;\n"
  ++ "            margin-bottom: 0.3rem;\n"
  ++ "            text-shadow: 0 0 5px rgba(0,0,0,0.8);\n"
  ++ "            font-weight: bold;\n"
  ++ "        \x7d\n"
  ++ "        \n"
  ++ "        .shade-hex \x7b\n"
  ++ "            font-size: 0.55rem;\n"
  ++ "            font-family: 'SF Mono', 'Monaco', 'Inconsolata', 'Fira Code', 'Droid Sans Mono', 'Source Code Pro', 'Courier New', monospace;\n"
  ++ "            text-shadow: 0 0 5px rgba(0,0,0,0.8);\n"
  ++ "        \x7d\n"
  ++ "        \n"
  ++ "        .palette-image-section \x7b\n"
  ++ "            margin-top: 0;\n"
  ++ "            padding: 0.5rem 1rem;\n"
  ++ "            background: #0A0A0A;\n"
  ++ "            border-top: 1px solid #1a1a1a;\n"
  ++ "        \x7d\n"
  ++ "        \n"
  ++ "        .palette-image-section h2 \x7b\n"
  ++ "            font-size: 0.7rem;\n"
  ++ "            font-weight: normal;\n"
  ++ "            text-transform: uppercase;\n"
  ++ "            letter-spacing: 2px;\n"
  ++ "            color: #888;\n"
  ++ "            margin-bottom: 0.5rem;\n"
  ++ "        \x7d\n"
  ++ "        \n"
  ++ "        .image-actions \x7b\n"
  ++ "            display: flex;\n"
  ++ "            gap: 0.5rem;\n"
  ++ "        \x7d\n"
  ++ "        \n"
  ++ "        .btn \x7b\n"
  ++ "            padding: 0.3rem 0.6rem;\n"
  ++ "            border: 1px solid #333;\n"
  ++ "            background: #1a1a1a;\n"
  ++ "            color: #fff;\n"
  ++ "            cursor: pointer;\n"
  ++ "            font-size: 0.65rem;\n"
  ++ "            font-family: 'SF Mono', 'Monaco', 'Inconsolata', 'Fira Code', 'Droid Sans Mono', 'Source Code Pro', 'Courier New', monospace;\n"
  ++ "            text-transform: uppercase;\n"
  ++ "            letter-spacing: 1px;\n"
  ++ "            transition: all 0.2s;\n"
  ++ "        \x7d\n"
  ++ "        \n"
  ++ "        .btn:hover \x7b\n"
  ++ "            background: #2a2a2a;\n"
  ++ "            border-color: #444;\n"
  ++ "        \x7d\n"
  ++ "        \n"
  ++ "        .btn:active \x7b\n"
  ++ "            transform: scale(0.95);\n"
  ++ "        \x7d\n"
  ++ "        \n"
  ++ "        .toast \x7b\n"
  ++ "            position: fixed;\n"
  ++ "            bottom: 1rem;\n"
  ++ "            right: 1rem;\n"
  ++ "            background: #1a1a1a;\n"
  ++ "            color: #fff;\n"
  ++ "            padding: 0.5rem 1rem;\n"
  ++ "            border: 1px solid #333;\n"
  ++ "            font-size: 0.7rem;\n"
  ++ "            font-family: 'SF Mono', 'Monaco', 'Inconsolata', 'Fira Code', 'Droid Sans Mono', 'Source Code Pro', 'Courier New', monospace;\n"
  ++ "            opacity: 0;\n"
  ++ "            transform: translateY(10px);\n"
  ++ "            transition: all 0.3s;\n"
  ++ "            z-index: 1000;\n"
  ++ "        \x7d\n"
  ++ "        \n"
  ++ "        .toast.show \x7b\n"
  ++ "            opacity: 1;\n"
  ++ "            transform: translateY(0);\n"
  ++ "        \x7d\n"
  ++ "    </style>\n"
  ++ "</head>\n"
  ++ "<body>\n"
  ++ "    <div class=\"header\">\n"
  ++ "        <h1>COLOR PALETTE</h1>\n"
  ++ "    </div>\n"
  ++ "    <div class=\"palette-grid\" id=\"paletteGrid\">\n"
  ++ "        <div id=\"toast\" class=\"toast\"></div>\n"

/-- The palette-image section the HTML renderer appends when the color list is non-empty (source lines 404-413): it closes the grid and emits the copy and download buttons, both referencing the relative file `palette.png`. -/
def paletteImageSection : String :=
  "\n"
  ++ "    </div>\n"
  ++ "    <div class=\"palette-image-section\">\n"
  ++ "        <h2>PALETTE IMAGE</h2>\n"
  ++ "        <div class=\"image-actions\">\n"
  ++ "            <button class=\"btn\" onclick=\"copyImage('palette.png')\">COPY IMAGE</button>\n"
  ++ "            <button class=\"btn\" onclick=\"downloadImage('palette.png', 'color_palette.png')\">DOWNLOAD IMAGE</button>\n"
  ++ "        </div>\n"
  ++ "    </div>\n"

/-- The fixed script footer of the HTML preview page (source lines 415-516). -/
def htmlFooter : String :=
  "\n"
  ++ "    <script>\n"
  ++ "        function showToast(message) \x7b\n"
  ++ "            const toast = document.getElementById('toast');\n"
  ++ "            toast.textContent = message;\n"
  ++ "            toast.classList.add('show');\n"
  ++ "            setTimeout(() => \x7b\n"
  ++ "                toast.classList.remove('show');\n"
  ++ "            \x7d, 2000);\n"
  ++ "        \x7d\n"
  ++ "        \n"
  ++ "        function closeAllShades() \x7b\n"
  ++ "            document.querySelectorAll('.color-block.expanded').forEach(block => \x7b\n"
  ++ "                block.classList.remove('expanded');\n"
  ++ "            \x7d);\n"
  ++ "        \x7d\n"
  ++ "        \n"
  ++ "        function toggleShades(element, event) \x7b\n"
  ++ "            // Stop event propagation to prevent backdrop clicks from toggling\n"
  ++ "            if (event) \x7b\n"
  ++ "                event.stopPropagation();\n"
  ++ "            \x7d\n"
  ++ "            \n"
  ++ "            // Close all other expanded blocks\n"
  ++ "            document.querySelectorAll('.color-block.expanded').forEach(block => \x7b\n"
  ++ "                if (block !== element) \x7b\n"
  ++ "                    block.classList.remove('expanded');\n"
  ++ "                \x7d\n"
  ++ "            \x7d);\n"
  ++ "            \n"
  ++ "            // Toggle current block\n"
  ++ "            element.classList.toggle('expanded');\n"
  ++ "            \n"
  ++ "            // Position shades container below the clicked block\n"
  ++ "            if (element.classList.contains('expanded')) \x7b\n"
  ++ "                const shadesContainer = element.querySelector('.shades-container');\n"
  ++ "                const rect = element.getBoundingClientRect();\n"
  ++ "                shadesContainer.style.top = (rect.bottom + window.scrollY) + 'px';\n"
  ++ "            \x7d\n"
  ++ "        \x7d\n"
  ++ "        \n"
  ++ "        // Close modal when clicking on backdrop or outside\n"
  ++ "        document.addEventListener('click', function(event) \x7b\n"
  ++ "            const expandedBlock = document.querySelector('.color-block.expanded');\n"
  ++ "            if (expandedBlock) \x7b\n"
  ++ "                const backdrop = expandedBlock.querySelector('.shades-backdrop');\n"
  ++ "                const shadesContainer = expandedBlock.querySelector('.shades-container');\n"
  ++ "                const colorName = expandedBlock.querySelector('.color-name');\n"
  ++ "                const colorHex = expandedBlock.querySelector('.color-hex');\n"
  ++ "                \n"
  ++ "                // Close if clicking on backdrop or outside the modal\n"
  ++ "                if (backdrop && backdrop.contains(event.target)) \x7b\n"
  ++ "                    expandedBlock.classList.remove('expanded');\n"
  ++ "                \x7d else if (!shadesContainer.contains(event.target) && \n"
  ++ "                          !colorName.contains(event.target) && \n"
  ++ "                          !colorHex.contains(event.target) &&\n"
  ++ "                          !expandedBlock.contains(event.target)) \x7b\n"
  ++ "                    expandedBlock.classList.remove('expanded');\n"
  ++ "                \x7d\n"
  ++ "            \x7d\n"
  ++ "        \x7d);\n"
  ++ "        \n"
  ++ "        // Close shades on Escape key\n"
  ++ "        document.addEventListener('keydown', function(event) \x7b\n"
  ++ "            if (event.key === 'Escape') \x7b\n"
  ++ "                closeAllShades();\n"
  ++ "            \x7d\n"
  ++ "        \x7d);\n"
  ++ "        \n"
  ++ "        function copyHex(hex) \x7b\n"
  ++ "            navigator.clipboard.writeText(hex).then(() => \x7b\n"
  ++ "                showToast('Copied: ' + hex);\n"
  ++ "            \x7d);\n"
  ++ "        \x7d\n"
  ++ "        \n"
  ++ "        async function copyImage(imagePath) \x7b\n"
  ++ "            try \x7b\n"
  ++ "                const response = await fetch(imagePath);\n"
  ++ "                const blob = await response.blob();\n"
  ++ "                await navigator.clipboard.write([\n"
  ++ "                    new ClipboardItem(\x7b [blob.type]: blob \x7d)\n"
  ++ "                ]);\n"
  ++ "                showToast('Image copied!');\n"
  ++ "            \x7d catch (err) \x7b\n"
  ++ "                console.error('Failed to copy image:', err);\n"
  ++ "                showToast('Copy failed. Try download.');\n"
  ++ "            \x7d\n"
  ++ "        \x7d\n"
  ++ "        \n"
  ++ "        function downloadImage(imagePath, filename) \x7b\n"
  ++ "            const link = document.createElement('a');\n"
  ++ "            link.href = imagePath;\n"
  ++ "            link.download = filename;\n"
  ++ "            document.body.appendChild(link);\n"
  ++ "            link.click();\n"
  ++ "            document.body.removeChild(link);\n"
  ++ "            showToast('Downloaded!');\n"
  ++ "        \x7d\n"
  ++ "    </script>\n"
  ++ "</body>\n"
  ++ "</html>\n"

/-- The fixed header of the brand-guidelines document (source lines 521-528). -/
def guidelinesHeader : String :=
  "# Color Palette Brand Guidelines\n"
  ++ "\n"
  ++ "## Overview\n"
  ++ "This document outlines the color palette and usage guidelines for the brand.\n"
  ++ "\n"
  ++ "## Primary Colors\n"
  ++ "\n"

/-- The fixed footer of the brand-guidelines document (source lines 555-601). -/
def guidelinesFooter : String :=
  "\n"
  ++ "## Usage Guidelines\n"
  ++ "\n"
  ++ "### Do's\n"
  ++ "- Use primary colors for brand elements and CTAs\n"
  ++ "- Use lighter shades (50-300) for backgrounds\n"
  ++ "- Use medium shades (400-600) for primary actions\n"
  ++ "- Use darker shades (700-900) for text and emphasis\n"
  ++ "- Maintain sufficient contrast ratios for accessibility (WCAG AA minimum)\n"
  ++ "\n"
  ++ "### Don'ts\n"
  ++ "- Don't use colors that clash with the brand palette\n"
  ++ "- Don't use colors at full opacity on light backgrounds without consideration\n"
  ++ "- Don't mix too many colors in a single design\n"
  ++ "- Don't use dark shades on dark backgrounds\n"
  ++ "\n"
  ++ "## CSS Usage\n"
  ++ "\n"
  ++ "Import the palette CSS file:\n"
  ++ "```css\n"
  ++ "@import 'palette.css';\n"
  ++ "```\n"
  ++ "\n"
  ++ "Use CSS variables:\n"
  ++ "```css\n"
  ++ ".my-element \x7b\n"
  ++ "    background-color: var(--color-fire-red);\n"
  ++ "    color: var(--color-fire-red-900);\n"
  ++ "\x7d\n"
  ++ "```\n"
  ++ "\n"
  ++ "Use utility classes:\n"
  ++ "```html\n"
  ++ "<div class=\"bg-fire-red text-white\">Content</div>\n"
  ++ "```\n"
  ++ "\n"
  ++ "## Accessibility\n"
  ++ "\n"
  ++ "All color combinations should meet WCAG 2.1 Level AA contrast requirements:\n"
  ++ "- Normal text: 4.5:1 contrast ratio\n"
  ++ "- Large text: 3:1 contrast ratio\n"
  ++ "- UI components: 3:1 contrast ratio\n"
  ++ "\n"
  ++ "Test your color combinations using tools like:\n"
  ++ "- WebAIM Contrast Checker\n"
  ++ "- Chrome DevTools Accessibility panel\n"

/-- The fixed header of the Tailwind config (source lines 607-613). -/
def tailwindConfigHeader : String :=
  "/** @type \x7bimport('tailwindcss').Config\x7d */\n"
  ++ "module.exports = \x7b\n"
  ++ "  content: [],\n"
  ++ "  theme: \x7b\n"
  ++ "    extend: \x7b\n"
  ++ "      colors: \x7b\n"

/-- The fixed footer of the Tailwind config (source lines 626-631). -/
def tailwindConfigFooter : String :=
  "      \x7d,\n"
  ++ "    \x7d,\n"
  ++ "  \x7d,\n"
  ++ "  plugins: [],\n"
  ++ "\x7d\n"

/-- Concatenation of a list of strings, modelling the `+=` accumulation of
the renderer loops (`strConcat (x :: l) = x ++ strConcat l` by definition). -/
def strConcat : List String → String
  | [] => ""
  | x :: l => x ++ strConcat l

/-- One `:root` block entry of `generate_css` (source lines 121-134). -/
def cssColorBlock (c : ColorEntry) : Option String :=
  (generate_shades c.hex).map fun shades =>
    "  --color-" ++ slugOf c.name ++ ": " ++ c.hex ++ ";\n"
    ++ "  --color-" ++ slugOf c.name ++ "-rgb: " ++ toString c.rgb.1 ++ ", "
      ++ toString c.rgb.2.1 ++ ", " ++ toString c.rgb.2.2 ++ ";\n"
    ++ "  --color-" ++ slugOf c.name ++ "-hsl: " ++ formatFixed1 c.hsl.1 ++ ", "
      ++ formatFixed1 c.hsl.2.1 ++ "%, " ++ formatFixed1 c.hsl.2.2 ++ "%;\n"
    ++ "\n  /* " ++ c.name ++ " Shades */\n"
    ++ strConcat (shades.map fun sh =>
        "  --color-" ++ slugOf c.name ++ "-" ++ sh.1 ++ ": " ++ sh.2 ++ ";\n")

/-- One utility-class block of `generate_css` (source lines 140-144). -/
def cssUtilityBlock (c : ColorEntry) : String :=
  ".bg-" ++ slugOf c.name ++ " \x7b background-color: var(--color-" ++ slugOf c.name
    ++ "); \x7d\n"
  ++ ".text-" ++ slugOf c.name ++ " \x7b color: var(--color-" ++ slugOf c.name
    ++ "); \x7d\n"
  ++ ".border-" ++ slugOf c.name ++ " \x7b border-color: var(--color-" ++ slugOf c.name
    ++ "); \x7d\n"

/-- `generate_css` (source lines 116-146). -/
def generate_css (colors : List ColorEntry) : Option String :=
  (colors.mapM cssColorBlock).map fun blocks =>
    ":root \x7b\n" ++ "  /* Primary Colors */\n" ++ strConcat blocks
    ++ "\x7d\n\n" ++ "/* Utility Classes */\n"
    ++ strConcat (colors.map cssUtilityBlock)

/-- One per-color section of `generate_guidelines` (source lines 535-553). -/
def guidelinesColorSection (c : ColorEntry) : String :=
  "### " ++ c.name ++ "\n\n**Hex:** `" ++ c.hex ++ "`  \n**RGB:** `rgb("
  ++ toString c.rgb.1 ++ ", " ++ toString c.rgb.2.1 ++ ", " ++ toString c.rgb.2.2
  ++ ")`  \n**HSL:** `hsl(" ++ formatFixed1 c.hsl.1 ++ ", " ++ formatFixed1 c.hsl.2.1
  ++ "%, " ++ formatFixed1 c.hsl.2.2 ++ "%)`  \n**CSS Variable:** `var(--color-"
  ++ slugOf c.name ++ ")`\n\n**Usage:**\n- Primary brand color\n"
  ++ "- Use for key CTAs and important elements\n- Maintains brand identity\n\n"
  ++ "**Shades Available:**\n- 50 (lightest) to 900 (darkest)\n"
  ++ "- Access via CSS variable: `var(--color-" ++ slugOf c.name
  ++ "-[50-900])`\n\n---\n\n"

/-- `generate_guidelines` (source lines 519-603). -/
def generate_guidelines (colors : List ColorEntry) : String :=
  guidelinesHeader ++ strConcat (colors.map guidelinesColorSection) ++ guidelinesFooter

/-- One color block of `generate_tailwind_config` (source lines 615-624):
each shade line strips the `'#'` from the shade hex and then writes a
literal `'#'` right back in front of it. -/
def tailwindColorBlock (c : ColorEntry) : Option String :=
  (generate_shades c.hex).map fun shades =>
    "        '" ++ slugOf c.name ++ "': \x7b\n"
    ++ strConcat (shades.map fun sh =>
        "          '" ++ sh.1 ++ "': '#" ++ lstripHash sh.2 ++ "',\n")
    ++ "        \x7d,\n"

/-- `generate_tailwind_config` (source lines 605-632). -/
def generate_tailwind_config (colors : List ColorEntry) : Option String :=
  (colors.mapM tailwindColorBlock).map fun blocks =>
    tailwindConfigHeader ++ strConcat blocks ++ tailwindConfigFooter

/-- The rendering of an abstract nested mapping
`slug ↦ (shade key ↦ value)` in the Tailwind-config syntax the program
uses, each value emitted verbatim between the quotes. -/
def renderTailwindMapping (m : List (String × List (String × String))) : String :=
  tailwindConfigHeader
  ++ strConcat (m.map fun cm =>
      "        '" ++ cm.1 ++ "': \x7b\n"
      ++ strConcat (cm.2.map fun sh => "          '" ++ sh.1 ++ "': '" ++ sh.2 ++ "',\n")
      ++ "        \x7d,\n")
  ++ tailwindConfigFooter

/-- The nested mapping `slug ↦ (shade key ↦ shade hex)` of a color list —
the mapping the spec says the Tailwind renderer emits, with each shade's
hex value kept whole (`'#'`-prefixed). -/
def tailwindMapping (colors : List ColorEntry) :
    Option (List (String × List (String × String))) :=
  colors.mapM fun c => (generate_shades c.hex).map fun shades => (slugOf c.name, shades)

/-- Modelled from the spec: the nested mapping with each shade's hex value
stripped of its `'#'` prefix — what the claim says the renderer emits. -/
def tailwindMappingNoHash (colors : List ColorEntry) :
    Option (List (String × List (String × String))) :=
  colors.mapM fun c => (generate_shades c.hex).map fun shades =>
    (slugOf c.name, shades.map fun sh => (sh.1, lstripHash sh.2))

/-- One shade tile of the HTML preview (source lines 389-396). -/
def shadeBlockHtml (sh : String × String) : Option String :=
  (get_text_color sh.2).map fun shade_text_color =>
    "\n                <div class=\"shade-block\" style=\"background-color: " ++ sh.2
    ++ ";\" onclick=\"event.stopPropagation(); copyHex('" ++ sh.2 ++ "')\">\n"
    ++ "                    <div class=\"shade-label\" style=\"color: "
    ++ shade_text_color ++ ";\">" ++ sh.1 ++ "</div>\n"
    ++ "                    <div class=\"shade-hex\" style=\"color: "
    ++ shade_text_color ++ ";\">" ++ pyUpper sh.2 ++ "</div>\n"
    ++ "                </div>\n"

/-- One color block of the HTML preview (source lines 377-400). -/
def colorBlockHtml (c : ColorEntry) : Option String := do
  let shades ← generate_shades c.hex
  let text_color ← get_text_color c.hex
  let shadeBlocks ← shades.mapM shadeBlockHtml
  some ("\n        <div class=\"color-block\" style=\"background-color: " ++ c.hex
    ++ ";\" onclick=\"toggleShades(this, event)\">\n"
    ++ "            <div class=\"color-name\" style=\"color: " ++ text_color ++ ";\">"
    ++ c.name ++ "</div>\n"
    ++ "            <div class=\"color-hex\" style=\"color: " ++ text_color ++ ";\">"
    ++ pyUpper c.hex ++ "</div>\n"
    ++ "            <div class=\"shades-backdrop\"></div>\n"
    ++ "            <div class=\"shades-container\" onclick=\"event.stopPropagation()\">\n"
    ++ strConcat shadeBlocks
    ++ "\n            </div>\n        </div>\n")

/-- `generate_html_preview` (source lines 148-517). The function takes only
the color list: nothing about the image backend reaches it, and the
palette-image section is appended whenever the list is non-empty. -/
def generate_html_preview (colors : List ColorEntry) : Option String := do
  let blocks ← colors.mapM colorBlockHtml
  some (htmlHead ++ strConcat blocks
    ++ (if colors.length > 0 then paletteImageSection else "") ++ htmlFooter)

/-- What one run of `main` does: the lines it prints, the text files it
writes (name and content) and the image files it writes (names only — the
raster bytes of the PIL drawing calls are outside the model). -/
structure RunResult where
  messages : List String
  files : List (String × String)
  images : List String
deriving DecidableEq

/-- `main` (source lines 836-896), over an abstract input state: the
content of `colors.txt` when it exists (`none` models a missing file), and
the `HAS_PIL` flag. The result is `none` only on the unreachable exception
paths of the renderers. -/
def main_run (colors_txt : Option String) (has_pil : Bool) : Option RunResult :=
  match colors_txt with
  | none => some ⟨["Error: colors.txt not found!"], [], []⟩
  | some content =>
    let colors := parse_colors_file content
    if colors.isEmpty then
      some ⟨["Parsing colors from colors.txt...", "No colors found in colors.txt!"], [], []⟩
    else
      match generate_css colors, generate_html_preview colors,
        generate_tailwind_config colors with
      | some css, some html, some tw =>
        some ⟨["Parsing colors from colors.txt...",
               "Found " ++ toString colors.length ++ " color(s)",
               "Generating CSS file...", "Generating HTML preview...",
               "Generating brand guidelines...", "Generating Tailwind config..."]
              ++ (if has_pil then
                    ["Generating color swatch images..."]
                    ++ colors.map (fun c => "  ✓ Generated " ++ slugOf c.name ++ ".png")
                    ++ ["Generating palette image...", "  ✓ Generated palette.png"]
                  else
                    ["\n⚠️  PIL/Pillow not installed. Skipping image generation.",
                     "   Install with: pip install Pillow"])
              ++ ["\n✅ All files generated successfully!",
                  "  - palette.css (CSS variables and utilities)",
                  "  - index.html (Visual preview)",
                  "  - GUIDELINES.md (Brand guidelines)",
                  "  - tailwind.config.js (Tailwind CSS configuration)"]
              ++ (if has_pil then
                    ["  - Individual color swatch images (.png)",
                     "  - Complete palette image (palette.png)"]
                  else [])
              ++ ["\nOpen index.html in your browser to see the palette!"],
              [("palette.css", css), ("index.html", html),
               ("GUIDELINES.md", generate_guidelines colors),
               ("tailwind.config.js", tw)],
              if has_pil then colors.map (fun c => slugOf c.name ++ ".png") ++ ["palette.png"]
              else []⟩
      | _, _, _ => none

/-- A concrete entry for witnesses and counterexamples: white, whose shade
ramp `generate_shades_white` evaluates in closed form. -/
def whiteEntry : ColorEntry := ⟨"#ffffff", "Snow", (255, 255, 255), (0, 0, 100)⟩

/-! ## Theorems -/

theorem char_eq_ofNat_toNat (c : Char) : c = Char.ofNat c.toNat :=
  (Char.ofNat_toNat c).symm

theorem lowerHexChar_bounds {c : Char} (h : lowerHexChar c = true) :
    (48 ≤ c.toNat ∧ c.toNat ≤ 57) ∨ (97 ≤ c.toNat ∧ c.toNat ≤ 102) := by
  unfold lowerHexChar at h
  simp only [Bool.or_eq_true, decide_eq_true_eq] at h
  rcases h with ⟨h1, h2⟩ | ⟨h1, h2⟩
  · exact Or.inl ⟨Char.le_def.mp h1, Char.le_def.mp h2⟩
  · exact Or.inr ⟨Char.le_def.mp h1, Char.le_def.mp h2⟩

theorem lowerHexChar_isHexChar {c : Char} (h : lowerHexChar c = true) :
    isHexChar c = true := by
  unfold lowerHexChar at h
  unfold isHexChar
  simp only [Bool.or_eq_true, decide_eq_true_eq] at h ⊢
  tauto

theorem lowerHexChar_ne_hash {c : Char} (h : lowerHexChar c = true) : c ≠ '#' := by
  rintro rfl
  exact absurd h (by decide)

theorem isHexChar_bounds {c : Char} (h : isHexChar c = true) :
    (48 ≤ c.toNat ∧ c.toNat ≤ 57) ∨ (97 ≤ c.toNat ∧ c.toNat ≤ 102) ∨
      (65 ≤ c.toNat ∧ c.toNat ≤ 70) := by
  unfold isHexChar at h
  simp only [Bool.or_eq_true, decide_eq_true_eq] at h
  rcases h with (⟨h1, h2⟩ | ⟨h1, h2⟩) | ⟨h1, h2⟩
  · exact Or.inl ⟨Char.le_def.mp h1, Char.le_def.mp h2⟩
  · exact Or.inr (Or.inl ⟨Char.le_def.mp h1, Char.le_def.mp h2⟩)
  · exact Or.inr (Or.inr ⟨Char.le_def.mp h1, Char.le_def.mp h2⟩)

theorem hexCharVal_eq_of_bounds {c : Char} :
    (48 ≤ c.toNat ∧ c.toNat ≤ 57 → hexCharVal c = c.toNat - 48) ∧
    (97 ≤ c.toNat ∧ c.toNat ≤ 102 → hexCharVal c = c.toNat - 97 + 10) ∧
    (65 ≤ c.toNat ∧ c.toNat ≤ 70 → hexCharVal c = c.toNat - 65 + 10) := by
  have e0 : ('0' : Char).toNat = 48 := rfl
  have e9 : ('9' : Char).toNat = 57 := rfl
  have ea : ('a' : Char).toNat = 97 := rfl
  have ef : ('f' : Char).toNat = 102 := rfl
  have eA : ('A' : Char).toNat = 65 := rfl
  refine ⟨fun ⟨h1, h2⟩ => ?_, fun ⟨h1, h2⟩ => ?_, fun ⟨h1, h2⟩ => ?_⟩
  · unfold hexCharVal
    rw [if_pos ⟨Char.le_def.mpr h1, Char.le_def.mpr h2⟩, e0]
  · unfold hexCharVal
    rw [if_neg (fun hc => by have h9 : c.toNat ≤ 57 := Char.le_def.mp hc.2; omega),
        if_pos ⟨Char.le_def.mpr h1, Char.le_def.mpr h2⟩, ea]
  · unfold hexCharVal
    rw [if_neg (fun hc => by have h9 : c.toNat ≤ 57 := Char.le_def.mp hc.2; omega),
        if_neg (fun hc => by have h9 : 97 ≤ c.toNat := Char.le_def.mp hc.1; omega),
        if_pos ⟨Char.le_def.mpr h1, Char.le_def.mpr h2⟩, eA]

theorem hexCharVal_lt_16 {c : Char} (h : isHexChar c = true) : hexCharVal c < 16 := by
  obtain ⟨hd, hl, hu⟩ := hexCharVal_eq_of_bounds (c := c)
  rcases isHexChar_bounds h with hb | hb | hb
  · rw [hd hb]; omega
  · rw [hl hb]; omega
  · rw [hu hb]; omega

/-- Formatting a lowercase hex digit's value gives back the digit. -/
theorem hexDigitLower_hexCharVal {c : Char} (h : lowerHexChar c = true) :
    hexDigitLower (hexCharVal c) = c := by
  have e0 : ('0' : Char).toNat = 48 := rfl
  have ea : ('a' : Char).toNat = 97 := rfl
  obtain ⟨hd, hl, _⟩ := hexCharVal_eq_of_bounds (c := c)
  rcases lowerHexChar_bounds h with hb | hb
  · unfold hexDigitLower
    rw [hd hb, if_pos (by omega), e0,
        show 48 + (c.toNat - 48) = c.toNat by omega]
    exact (char_eq_ofNat_toNat c).symm
  · unfold hexDigitLower
    rw [hl hb, if_neg (by omega), ea,
        show 97 + (c.toNat - 97 + 10) - 10 = c.toNat by omega]
    exact (char_eq_ofNat_toNat c).symm

/-- Parsing a formatted hex digit gives back the value, the digit is in the
regex class, is lowercase-hex and is not `'#'` (for every value `< 16`). -/
theorem hexDigitLower_facts :
    ∀ v < 16, hexCharVal (hexDigitLower v) = v ∧ isHexChar (hexDigitLower v) = true ∧
      lowerHexChar (hexDigitLower v) = true ∧ hexDigitLower v ≠ '#' := by decide

/-- C1. For every `ColorEntry` (any hex string its `hex_to_rgb` parses, which
covers all parsed entries), the ramp `generate_shades` produces maps the key
`"500"` to the entry's own input hex, exactly. -/
theorem generate_shades_maps_500_to_base (hx : String) (rgb : ℕ × ℕ × ℕ)
    (h : hex_to_rgb hx = some rgb) :
    ∃ shades, generate_shades hx = some shades ∧ shades.lookup "500" = some hx := by
  refine ⟨_, by rw [generate_shades, h]; rfl, ?_⟩
  rfl

/-- Witness for C1 at the concrete entry `#ff0000`. -/
theorem generate_shades_maps_500_to_base_witness :
    ∃ shades, generate_shades "#ff0000" = some shades ∧
      shades.lookup "500" = some "#ff0000" :=
  generate_shades_maps_500_to_base "#ff0000" (255, 0, 0) rfl

/-- Helper: a valid hex string parses to a byte triple (each `≤ 255`) that
formats back to the same string. -/
theorem validHex_roundtrip (hx : String) (hv : IsValidHexString hx) :
    ∃ r g b, hex_to_rgb hx = some (r, g, b) ∧ rgb_to_hex (r, g, b) = hx ∧
      r ≤ 255 ∧ g ≤ 255 ∧ b ≤ 255 := by
  obtain ⟨cs, htl, hlen, hall⟩ := hv
  rcases cs with _ | ⟨c1, cs⟩; · simp at hlen
  rcases cs with _ | ⟨c2, cs⟩; · simp at hlen
  rcases cs with _ | ⟨c3, cs⟩; · simp at hlen
  rcases cs with _ | ⟨c4, cs⟩; · simp at hlen
  rcases cs with _ | ⟨c5, cs⟩; · simp at hlen
  rcases cs with _ | ⟨c6, cs⟩; · simp at hlen
  rcases cs with _ | ⟨c7, cs⟩
  case cons => simp at hlen
  have h1 := hall c1 (by simp)
  have h2 := hall c2 (by simp)
  have h3 := hall c3 (by simp)
  have h4 := hall c4 (by simp)
  have h5 := hall c5 (by simp)
  have h6 := hall c6 (by simp)
  have hstrip : lstripHash hx = ⟨[c1, c2, c3, c4, c5, c6]⟩ := by
    unfold lstripHash
    rw [htl]
    simp [List.dropWhile, lowerHexChar_ne_hash h1]
  have hpair : ∀ a b : Char, lowerHexChar a = true → lowerHexChar b = true →
      pyIntHex ⟨[a, b]⟩ = some (16 * hexCharVal a + hexCharVal b) := by
    intro a b ha hb
    unfold pyIntHex
    rw [if_pos]
    · simp [List.foldl]
    · refine ⟨by simp, ?_⟩
      simp [List.all_cons, lowerHexChar_isHexChar ha, lowerHexChar_isHexChar hb]
  have hbyte : ∀ a b : Char, lowerHexChar a = true → lowerHexChar b = true →
      hexByte (16 * hexCharVal a + hexCharVal b) = ⟨[a, b]⟩ := by
    intro a b ha hb
    have hva : hexCharVal a < 16 := hexCharVal_lt_16 (lowerHexChar_isHexChar ha)
    have hvb : hexCharVal b < 16 := hexCharVal_lt_16 (lowerHexChar_isHexChar hb)
    unfold hexByte
    rw [show (16 * hexCharVal a + hexCharVal b) / 16 = hexCharVal a by omega,
        show (16 * hexCharVal a + hexCharVal b) % 16 = hexCharVal b by omega,
        hexDigitLower_hexCharVal ha, hexDigitLower_hexCharVal hb]
  have hb1 : hexCharVal c1 < 16 := hexCharVal_lt_16 (lowerHexChar_isHexChar h1)
  have hb2 : hexCharVal c2 < 16 := hexCharVal_lt_16 (lowerHexChar_isHexChar h2)
  have hb3 : hexCharVal c3 < 16 := hexCharVal_lt_16 (lowerHexChar_isHexChar h3)
  have hb4 : hexCharVal c4 < 16 := hexCharVal_lt_16 (lowerHexChar_isHexChar h4)
  have hb5 : hexCharVal c5 < 16 := hexCharVal_lt_16 (lowerHexChar_isHexChar h5)
  have hb6 : hexCharVal c6 < 16 := hexCharVal_lt_16 (lowerHexChar_isHexChar h6)
  refine ⟨16 * hexCharVal c1 + hexCharVal c2, 16 * hexCharVal c3 + hexCharVal c4,
    16 * hexCharVal c5 + hexCharVal c6, ?_, ?_, by omega, by omega, by omega⟩
  · unfold hex_to_rgb
    rw [hstrip]
    simp only [String.toList]
    rw [show ((⟨[c1, c2, c3, c4, c5, c6]⟩ : String).data.take 2) = [c1, c2] from rfl,
        show (((⟨[c1, c2, c3, c4, c5, c6]⟩ : String).data.drop 2).take 2) = [c3, c4] from rfl,
        show (((⟨[c1, c2, c3, c4, c5, c6]⟩ : String).data.drop 4).take 2) = [c5, c6] from rfl]
    rw [hpair c1 c2 h1 h2, hpair c3 c4 h3 h4, hpair c5 c6 h5 h6]
    rfl
  · unfold rgb_to_hex
    rw [hbyte c1 c2 h1 h2, hbyte c3 c4 h3 h4, hbyte c5 c6 h5 h6]
    have : hx = ⟨'#' :: [c1, c2, c3, c4, c5, c6]⟩ := by
      have := congrArg (fun l : List Char => (⟨l⟩ : String)) htl
      simpa using this
    rw [this]
    rfl

/-- C3. For every valid hex string (the canonical `'#'`-prefixed lowercase
six-digit format of the spec's data model), `rgb_to_hex` after `hex_to_rgb`
returns the string unchanged: the conversion is an exact integer round trip. -/
theorem rgb_to_hex_hex_to_rgb_roundtrip (hx : String) (hv : IsValidHexString hx) :
    ∃ r g b, hex_to_rgb hx = some (r, g, b) ∧ rgb_to_hex (r, g, b) = hx := by
  obtain ⟨r, g, b, h1, h2, _⟩ := validHex_roundtrip hx hv
  exact ⟨r, g, b, h1, h2⟩

/-- Witness for C3 at the concrete valid hex string `#0af9b3`. -/
theorem rgb_to_hex_hex_to_rgb_roundtrip_witness :
    ∃ r g b, hex_to_rgb "#0af9b3" = some (r, g, b) ∧ rgb_to_hex (r, g, b) = "#0af9b3" :=
  rgb_to_hex_hex_to_rgb_roundtrip "#0af9b3"
    ⟨['0', 'a', 'f', '9', 'b', '3'], rfl, rfl, by decide⟩

/-- C5. For every RGB color in range (every color `hex_to_rgb` can produce),
`get_text_color` returns white exactly when the spec's luminance is `< 0.5`,
and black otherwise — in particular black at luminance exactly `0.5`. -/
theorem get_text_color_spec (hx : String) (r g b : ℕ)
    (h : hex_to_rgb hx = some (r, g, b)) :
    get_text_color hx =
      some (if specLuminance r g b < 0.5 then "#FFFFFF" else "#000000") ∧
    (specLuminance r g b = 0.5 → get_text_color hx = some "#000000") := by
  have hmain : get_text_color hx =
      some (if specLuminance r g b < 0.5 then "#FFFFFF" else "#000000") := by
    unfold get_text_color specLuminance
    rw [h]
    rfl
  refine ⟨hmain, fun heq => ?_⟩
  rw [hmain, if_neg (by rw [heq]; exact lt_irrefl _)]

/-- Witness for C5 at `#5a966e = rgb(90, 150, 110)`, whose luminance is
exactly `0.5`: the text color is black. -/
theorem get_text_color_spec_witness :
    get_text_color "#5a966e" = some "#000000" ∧ specLuminance 90 150 110 = 0.5 := by
  have h := get_text_color_spec "#5a966e" 90 150 110 rfl
  have hl : specLuminance 90 150 110 = 0.5 := by
    unfold specLuminance
    norm_num
  exact ⟨h.2 hl, hl⟩

/-- C8. For every non-empty color count `n`, the palette image grid has at
most 3 columns, exactly `⌈n / 3⌉` rows (`= (n + 2) / 3` in natural division;
the least row count fitting `n` at 3 per row), and swatch `idx` sits at row
`idx / cols`, column `idx % cols`, inside the grid. -/
theorem palette_image_grid_layout (n : ℕ) (hn : 1 ≤ n) :
    paletteGridCols n ≤ 3 ∧
    paletteGridRows n = (n + 2) / 3 ∧
    n ≤ 3 * paletteGridRows n ∧ 3 * (paletteGridRows n - 1) < n ∧
    ∀ idx < n, swatchCell n idx = (idx / paletteGridCols n, idx % paletteGridCols n) ∧
      swatchOrigin n idx = ((idx % paletteGridCols n) * 400, (idx / paletteGridCols n) * 400) ∧
      (swatchCell n idx).1 < paletteGridRows n ∧ (swatchCell n idx).2 < paletteGridCols n := by
  rcases le_or_lt n 2 with hsmall | hbig
  · interval_cases n
    · exact ⟨by decide, by decide, by decide, by decide, by decide⟩
    · exact ⟨by decide, by decide, by decide, by decide, by decide⟩
  · have hcols : paletteGridCols n = 3 := min_eq_left (by omega)
    have hrows : paletteGridRows n = (n + 2) / 3 := by
      unfold paletteGridRows
      rw [hcols]
      omega
    refine ⟨by rw [hcols], hrows, by rw [hrows]; omega, by rw [hrows]; omega, ?_⟩
    intro idx hidx
    refine ⟨rfl, rfl, ?_, ?_⟩
    · show idx / paletteGridCols n < paletteGridRows n
      rw [hcols, hrows]
      omega
    · show idx % paletteGridCols n < paletteGridCols n
      rw [hcols]
      omega

/-- Witness for C8 at `n = 7` colors: 3 columns, `⌈7/3⌉ = 3` rows, and
swatch 5 sits at row 1, column 2. -/
theorem palette_image_grid_layout_witness :
    (paletteGridCols 7 ≤ 3 ∧ paletteGridRows 7 = (7 + 2) / 3 ∧
      7 ≤ 3 * paletteGridRows 7 ∧ 3 * (paletteGridRows 7 - 1) < 7 ∧
      ∀ idx < 7, swatchCell 7 idx = (idx / paletteGridCols 7, idx % paletteGridCols 7) ∧
        swatchOrigin 7 idx = ((idx % paletteGridCols 7) * 400, (idx / paletteGridCols 7) * 400) ∧
        (swatchCell 7 idx).1 < paletteGridRows 7 ∧ (swatchCell 7 idx).2 < paletteGridCols 7) ∧
    swatchCell 7 5 = (1, 2) :=
  ⟨palette_image_grid_layout 7 (by norm_num), by decide⟩

/-- Lowercasing a hex digit of the regex class gives a lowercase hex digit. -/
theorem lowerHexChar_pyLowerChar {c : Char} (h : isHexChar c = true) :
    lowerHexChar (pyLowerChar c) = true := by
  have eA : ('A' : Char).toNat = 65 := rfl
  have eZ : ('Z' : Char).toNat = 90 := rfl
  rcases isHexChar_bounds h with ⟨h1, h2⟩ | ⟨h1, h2⟩ | ⟨h1, h2⟩
  · have hcond : ¬('A' ≤ c ∧ c ≤ 'Z') := fun hc => by
      have hA : 65 ≤ c.toNat := Char.le_def.mp hc.1
      omega
    unfold pyLowerChar
    rw [if_neg hcond]
    unfold lowerHexChar
    simp only [Bool.or_eq_true, decide_eq_true_eq]
    exact Or.inl ⟨Char.le_def.mpr h1, Char.le_def.mpr h2⟩
  · have hcond : ¬('A' ≤ c ∧ c ≤ 'Z') := fun hc => by
      have hZ : c.toNat ≤ 90 := Char.le_def.mp hc.2
      omega
    unfold pyLowerChar
    rw [if_neg hcond]
    unfold lowerHexChar
    simp only [Bool.or_eq_true, decide_eq_true_eq]
    exact Or.inr ⟨Char.le_def.mpr h1, Char.le_def.mpr h2⟩
  · have hcond : 'A' ≤ c ∧ c ≤ 'Z' :=
      ⟨Char.le_def.mpr h1, Char.le_def.mpr (show c.toNat ≤ 90 by omega)⟩
    unfold pyLowerChar
    rw [if_pos hcond]
    obtain ⟨n, hn, hn1, hn2⟩ : ∃ n, c.toNat = n ∧ 65 ≤ n ∧ n ≤ 70 := ⟨c.toNat, rfl, h1, h2⟩
    rw [hn]
    interval_cases n <;> decide

/-- A successful match yields exactly six digits of the regex class. -/
theorem matchColorLine_some {cs digits tail : List Char}
    (hm : matchColorLine cs = some (digits, tail)) :
    digits.length = 6 ∧ ∀ c ∈ digits, isHexChar c = true := by
  unfold matchColorLine at hm
  split at hm
  · next hcond =>
    split at hm
    · split at hm
      · injection hm with hm
        have h1 : cs.take 6 = digits := congrArg Prod.fst hm
        have hlen : digits.length = 6 := by
          rw [← h1, List.length_take]
          omega
        refine ⟨hlen, fun c hc => ?_⟩
        have := hcond.2
        rw [List.all_eq_true] at this
        exact this c (h1 ▸ hc)
      · exact absurd hm (by simp)
    · exact absurd hm (by simp)
  · exact absurd hm (by simp)

theorem parseLines_acc (ls : List String) :
    ∀ acc, parseLines ls acc = acc ++ parseLines ls [] := by
  induction ls with
  | nil => intro acc; simp [parseLines]
  | cons l ls ih =>
    intro acc
    cases h : lineRecord l with
    | none => simp only [parseLines, h]; exact ih acc
    | some e =>
      simp only [parseLines, h]
      rw [ih (acc ++ [e]), ih ([] ++ [e]), List.nil_append, List.append_assoc]

theorem parseLines_eq_filterMap (ls : List String) :
    parseLines ls [] = ls.filterMap lineRecord := by
  induction ls with
  | nil => rfl
  | cons l ls ih =>
    cases h : lineRecord l with
    | none => simp only [parseLines, h, List.filterMap_cons]; exact ih
    | some e =>
      simp only [parseLines, h, List.filterMap_cons, List.nil_append]
      rw [parseLines_acc, ih]
      rfl

theorem rstripList_cons_of_not_space {a : Char} (l : List Char)
    (ha : isPySpace a = false) : rstripList (a :: l) = a :: rstripList l := by
  unfold rstripList
  rw [List.reverse_cons, List.dropWhile_append]
  split
  · next hemp =>
    rw [List.isEmpty_iff] at hemp
    rw [hemp]
    simp [List.dropWhile_cons, ha]
  · simp

/-- A stripped line whose head is `'#'` yields no record. -/
theorem lineRecord_none_of_stripped_head_hash (line : String)
    (h : (line.toList.dropWhile isPySpace).head? = some '#') :
    lineRecord line = none := by
  unfold lineRecord
  rcases hd : line.toList.dropWhile isPySpace with _ | ⟨c, rest⟩
  · rw [hd] at h; simp at h
  · rw [hd] at h
    simp only [List.head?] at h
    injection h with h
    subst h
    have : pyStripList line.toList = '#' :: rstripList rest := by
      unfold pyStripList
      rw [hd]
      exact rstripList_cons_of_not_space rest (by decide)
    rw [this]
    simp

/-- C7. The parser: (i) its result is the ordered `filterMap` of the
per-line matcher over the lines — matching records in input order, with no
deduplication; (ii) concatenating line lists concatenates results (so a
repeated line is repeated in the output); (iii) the empty line and every
line starting with `'#'` are ignored; (iv) every produced entry carries a
canonical lowercase `'#'`-prefixed hex whose parsed `rgb` is consistent. -/
theorem parse_colors_file_spec (ls ls₁ ls₂ : List String) :
    parseLines ls [] = ls.filterMap lineRecord ∧
    parseLines (ls₁ ++ ls₂) [] = parseLines ls₁ [] ++ parseLines ls₂ [] ∧
    (lineRecord "" = none ∧ ∀ l : String, l.toList.head? = some '#' → lineRecord l = none) ∧
    (∀ l : String, ∀ e, lineRecord l = some e →
      IsValidHexString e.hex ∧ hex_to_rgb e.hex = some e.rgb) := by
  refine ⟨parseLines_eq_filterMap ls, ?_, ⟨rfl, ?_⟩, ?_⟩
  · rw [parseLines_eq_filterMap, parseLines_eq_filterMap, parseLines_eq_filterMap,
        List.filterMap_append]
  · intro l hl
    apply lineRecord_none_of_stripped_head_hash
    rcases htl : l.toList with _ | ⟨c, rest⟩
    · rw [htl] at hl; simp at hl
    · rw [htl] at hl
      simp only [List.head?] at hl
      injection hl with hl
      subst hl
      rw [List.dropWhile_cons, show isPySpace '#' = false from rfl]
      simp
  · intro l e he
    simp only [lineRecord] at he
    split at he
    · exact absurd he (by simp)
    split at he
    all_goals try (exfalso; exact Option.noConfusion he)
    next digits tail hm =>
      split at he
      all_goals try (exfalso; exact Option.noConfusion he)
      rename_i rgb hsl hr hh
      injection he with he
      subst he
      obtain ⟨hlen, hall⟩ := matchColorLine_some hm
      refine ⟨⟨digits.map pyLowerChar, rfl, by simp [hlen], ?_⟩, hr⟩
      intro c hc
      rw [List.mem_map] at hc
      obtain ⟨d, hd, rfl⟩ := hc
      exact lowerHexChar_pyLowerChar (hall d hd)

/-- Witness for C7's quantified conjuncts at concrete input: two valid
lines (one repeated), a comment, a blank and a garbage line parse to the
three matching records in input order. -/
theorem parse_colors_file_spec_witness :
    parse_colors_file "ff0000 # Fire Red\n# comment\n\nnot a color\nff0000 # Fire Red\n00ff80 # Mint" =
      ["ff0000 # Fire Red", "# comment", "", "not a color", "ff0000 # Fire Red",
        "00ff80 # Mint"].filterMap lineRecord ∧
    ∃ e1 e2, lineRecord "ff0000 # Fire Red" = some e1 ∧ lineRecord "00ff80 # Mint" = some e2 ∧
      parse_colors_file "ff0000 # Fire Red\n# comment\n\nnot a color\nff0000 # Fire Red\n00ff80 # Mint" =
        [e1, e1, e2] ∧ e1.hex = "#ff0000" ∧ e1.name = "Fire Red" := by
  constructor
  · exact (parse_colors_file_spec ["ff0000 # Fire Red", "# comment", "", "not a color",
      "ff0000 # Fire Red", "00ff80 # Mint"] [] []).1
  · exact ⟨_, _, rfl, rfl, rfl, rfl, rfl⟩

/-- C9. The parser strips whitespace before the comment check: every line
whose first non-whitespace character is `'#'` is skipped — not only lines
whose very first character is `'#'`. -/
theorem comment_check_after_strip (line : String)
    (h : (line.toList.dropWhile isPySpace).head? = some '#') :
    lineRecord line = none :=
  lineRecord_none_of_stripped_head_hash line h

/-- Witness for C9: an indented comment line, whose very first character is
a space rather than `'#'`, is still skipped. -/
theorem comment_check_after_strip_witness :
    lineRecord "   # indented comment" = none ∧
    ("   # indented comment".toList.head? = some ' ') :=
  ⟨comment_check_after_strip "   # indented comment" (by decide), rfl⟩

theorem ratFloor_eq_intFloor (q : ℚ) : q.floor = ⌊q⌋ :=
  (Rat.floor_def' q).trans Rat.floor_def.symm

theorem pyMod1_eq_fract (q : ℚ) : pyMod1 q = Int.fract q := by
  unfold pyMod1 Int.fract
  rw [ratFloor_eq_intFloor]

theorem pyMod1_nonneg (q : ℚ) : 0 ≤ pyMod1 q := by
  rw [pyMod1_eq_fract]; exact Int.fract_nonneg q

theorem pyMod1_lt_one (q : ℚ) : pyMod1 q < 1 := by
  rw [pyMod1_eq_fract]; exact Int.fract_lt_one q

theorem hls_m_bounds {l s : ℚ} (hl0 : 0 ≤ l) (hl1 : l ≤ 1) (hs0 : 0 ≤ s) (hs1 : s ≤ 1) :
    0 ≤ hls_m1 l s ∧ hls_m1 l s ≤ hls_m2 l s ∧ hls_m2 l s ≤ 1 := by
  unfold hls_m1 hls_m2
  split
  · next h => refine ⟨by nlinarith, by nlinarith, by nlinarith⟩
  · next h => refine ⟨by nlinarith, by nlinarith, by nlinarith⟩

theorem hls_m2_mono {s : ℚ} (hs0 : 0 ≤ s) (hs1 : s ≤ 1) {l₁ l₂ : ℚ} (h : l₁ ≤ l₂) :
    hls_m2 l₁ s ≤ hls_m2 l₂ s := by
  unfold hls_m2
  split <;> split
  · nlinarith
  · next h1 h2 => nlinarith
  · next h1 h2 => nlinarith
  · nlinarith

theorem hls_m1_mono {s : ℚ} (hs0 : 0 ≤ s) (hs1 : s ≤ 1) {l₁ l₂ : ℚ} (h : l₁ ≤ l₂) :
    hls_m1 l₁ s ≤ hls_m1 l₂ s := by
  unfold hls_m1 hls_m2
  split <;> split
  · nlinarith
  · next h1 h2 => nlinarith
  · next h1 h2 => nlinarith
  · nlinarith

theorem hls_v_eq (m1 m2 hue : ℚ) :
    hls_v m1 m2 hue =
      if pyMod1 hue < 1/6 then m1 + (m2 - m1) * pyMod1 hue * 6
      else if pyMod1 hue < 1/2 then m2
      else if pyMod1 hue < 2/3 then m1 + (m2 - m1) * (2/3 - pyMod1 hue) * 6
      else m1 := rfl

theorem hls_v_bounds {m1 m2 : ℚ} (hm : m1 ≤ m2) (hue : ℚ) :
    m1 ≤ hls_v m1 m2 hue ∧ hls_v m1 m2 hue ≤ m2 := by
  have h0 := pyMod1_nonneg hue
  have h1 := pyMod1_lt_one hue
  rw [hls_v_eq]
  rcases lt_or_le (pyMod1 hue) (1/6) with hc | hc
  · rw [if_pos hc]; constructor <;> nlinarith
  · rw [if_neg (not_lt.mpr hc)]
    rcases lt_or_le (pyMod1 hue) (1/2) with hc2 | hc2
    · rw [if_pos hc2]; exact ⟨hm, le_refl _⟩
    · rw [if_neg (not_lt.mpr hc2)]
      rcases lt_or_le (pyMod1 hue) (2/3) with hc3 | hc3
      · rw [if_pos hc3]; constructor <;> nlinarith
      · rw [if_neg (not_lt.mpr hc3)]; exact ⟨le_refl _, hm⟩

theorem hls_v_mono {m1 m2 m1' m2' : ℚ} (h1 : m1 ≤ m1') (h2 : m2 ≤ m2') (hue : ℚ) :
    hls_v m1 m2 hue ≤ hls_v m1' m2' hue := by
  have hv0 := pyMod1_nonneg hue
  have hv1 := pyMod1_lt_one hue
  rw [hls_v_eq, hls_v_eq]
  rcases lt_or_le (pyMod1 hue) (1/6) with hc | hc
  · simp only [if_pos hc]; nlinarith
  · simp only [if_neg (not_lt.mpr hc)]
    rcases lt_or_le (pyMod1 hue) (1/2) with hc2 | hc2
    · simp only [if_pos hc2]; exact h2
    · simp only [if_neg (not_lt.mpr hc2)]
      rcases lt_or_le (pyMod1 hue) (2/3) with hc3 | hc3
      · simp only [if_pos hc3]; nlinarith
      · simp only [if_neg (not_lt.mpr hc3)]; exact h1

theorem hls_channels_bounds {h l s : ℚ} (hl0 : 0 ≤ l) (hl1 : l ≤ 1)
    (hs0 : 0 ≤ s) (hs1 : s ≤ 1) :
    (0 ≤ (hls_to_rgb h l s).1 ∧ (hls_to_rgb h l s).1 ≤ 1) ∧
    (0 ≤ (hls_to_rgb h l s).2.1 ∧ (hls_to_rgb h l s).2.1 ≤ 1) ∧
    (0 ≤ (hls_to_rgb h l s).2.2 ∧ (hls_to_rgb h l s).2.2 ≤ 1) := by
  unfold hls_to_rgb
  split
  · exact ⟨⟨hl0, hl1⟩, ⟨hl0, hl1⟩, ⟨hl0, hl1⟩⟩
  · obtain ⟨ha, hb, hc⟩ := hls_m_bounds hl0 hl1 hs0 hs1
    refine ⟨⟨?_, ?_⟩, ⟨?_, ?_⟩, ⟨?_, ?_⟩⟩ <;>
      [exact le_trans ha (hls_v_bounds hb _).1;
       exact le_trans (hls_v_bounds hb _).2 hc;
       exact le_trans ha (hls_v_bounds hb _).1;
       exact le_trans (hls_v_bounds hb _).2 hc;
       exact le_trans ha (hls_v_bounds hb _).1;
       exact le_trans (hls_v_bounds hb _).2 hc]

theorem hls_channels_mono {h s : ℚ} (hs0 : 0 ≤ s) (hs1 : s ≤ 1)
    {l₁ l₂ : ℚ} (hl : l₁ ≤ l₂) :
    (hls_to_rgb h l₁ s).1 ≤ (hls_to_rgb h l₂ s).1 ∧
    (hls_to_rgb h l₁ s).2.1 ≤ (hls_to_rgb h l₂ s).2.1 ∧
    (hls_to_rgb h l₁ s).2.2 ≤ (hls_to_rgb h l₂ s).2.2 := by
  unfold hls_to_rgb
  split
  · exact ⟨hl, hl, hl⟩
  · have hm1 := hls_m1_mono hs0 hs1 hl
    have hm2 := hls_m2_mono hs0 hs1 hl
    exact ⟨hls_v_mono hm1 hm2 _, hls_v_mono hm1 hm2 _, hls_v_mono hm1 hm2 _⟩

theorem max_min_sum_3 {x y z lo hi : ℚ} (hx : lo ≤ x ∧ x ≤ hi) (hy : lo ≤ y ∧ y ≤ hi)
    (hz : lo ≤ z ∧ z ≤ hi) (hhi : x = hi ∨ y = hi ∨ z = hi)
    (hlo : x = lo ∨ y = lo ∨ z = lo) :
    max x (max y z) + min x (min y z) = hi + lo := by
  have hmax : max x (max y z) = hi := by
    refine le_antisymm (max_le hx.2 (max_le hy.2 hz.2)) ?_
    rcases hhi with rfl | rfl | rfl
    · exact le_max_left _ _
    · exact le_trans (le_max_left _ _) (le_max_right _ _)
    · exact le_trans (le_max_right _ _) (le_max_right _ _)
  have hmin : min x (min y z) = lo := by
    refine le_antisymm ?_ (le_min hx.1 (le_min hy.1 hz.1))
    rcases hlo with rfl | rfl | rfl
    · exact min_le_left _ _
    · exact le_trans (min_le_right _ _) (min_le_left _ _)
    · exact le_trans (min_le_right _ _) (min_le_right _ _)
  rw [hmax, hmin]

theorem fract_shift_up (h : ℚ) :
    Int.fract (h + 1/3) =
      if Int.fract h < 2/3 then Int.fract h + 1/3 else Int.fract h - 2/3 := by
  have ht0 : 0 ≤ Int.fract h := Int.fract_nonneg h
  have ht1 : Int.fract h < 1 := Int.fract_lt_one h
  conv_lhs => rw [← Int.floor_add_fract h, add_assoc, Int.fract_int_add]
  split
  · next hc => exact Int.fract_eq_self.mpr ⟨by linarith, by linarith⟩
  · next hc =>
    rw [show Int.fract h + 1/3 = (Int.fract h - 2/3) + (1 : ℤ) by push_cast; ring,
        Int.fract_add_int]
    exact Int.fract_eq_self.mpr ⟨by linarith, by linarith⟩

theorem fract_shift_down (h : ℚ) :
    Int.fract (h - 1/3) =
      if Int.fract h < 1/3 then Int.fract h + 2/3 else Int.fract h - 1/3 := by
  have ht0 : 0 ≤ Int.fract h := Int.fract_nonneg h
  have ht1 : Int.fract h < 1 := Int.fract_lt_one h
  have hsplit : h - 1/3 = (⌊h⌋ : ℚ) + (Int.fract h - 1/3) := by
    have hf : Int.fract h = h - (⌊h⌋ : ℚ) := rfl
    linarith
  rw [hsplit, Int.fract_int_add]
  split
  · next hc =>
    rw [show Int.fract h - 1/3 = (Int.fract h + 2/3) + (-1 : ℤ) by push_cast; ring,
        Int.fract_add_int]
    exact Int.fract_eq_self.mpr ⟨by linarith, by linarith⟩
  · next hc => exact Int.fract_eq_self.mpr ⟨by linarith, by linarith⟩

theorem hls_v_plateau_hi {m1 m2 : ℚ} (hue : ℚ) (h1 : 1/6 ≤ pyMod1 hue)
    (h2 : pyMod1 hue < 1/2) : hls_v m1 m2 hue = m2 := by
  rw [hls_v_eq, if_neg (not_lt.mpr h1), if_pos h2]

theorem hls_v_plateau_lo {m1 m2 : ℚ} (hue : ℚ) (h1 : 2/3 ≤ pyMod1 hue) :
    hls_v m1 m2 hue = m1 := by
  rw [hls_v_eq, if_neg (by push_neg; linarith), if_neg (by push_neg; linarith),
      if_neg (not_lt.mpr h1)]

/-- The `max` and `min` of the three channels `hls_to_rgb` emits add up to
`2 l`: the HLS round trip preserves lightness exactly (before the byte
truncation). -/
theorem hls_channels_sum {h l s : ℚ} (hl0 : 0 ≤ l) (hl1 : l ≤ 1)
    (hs0 : 0 ≤ s) (hs1 : s ≤ 1) :
    max (hls_to_rgb h l s).1 (max (hls_to_rgb h l s).2.1 (hls_to_rgb h l s).2.2) +
      min (hls_to_rgb h l s).1 (min (hls_to_rgb h l s).2.1 (hls_to_rgb h l s).2.2) =
      2 * l := by
  unfold hls_to_rgb
  split
  · dsimp only
    simp only [max_self, min_self]
    ring
  · next hs =>
    dsimp only
    obtain ⟨hm0, hm, hm1⟩ := hls_m_bounds hl0 hl1 hs0 hs1
    have hb1 := hls_v_bounds hm (h + 1/3)
    have hb2 := hls_v_bounds hm h
    have hb3 := hls_v_bounds hm (h - 1/3)
    have e1 : pyMod1 (h + 1/3) =
        if Int.fract h < 2/3 then Int.fract h + 1/3 else Int.fract h - 2/3 := by
      rw [pyMod1_eq_fract, fract_shift_up]
    have e0 : pyMod1 h = Int.fract h := pyMod1_eq_fract h
    have e3 : pyMod1 (h - 1/3) =
        if Int.fract h < 1/3 then Int.fract h + 2/3 else Int.fract h - 1/3 := by
      rw [pyMod1_eq_fract, fract_shift_down]
    have ht0 : 0 ≤ Int.fract h := Int.fract_nonneg h
    have ht1 : Int.fract h < 1 := Int.fract_lt_one h
    have key : max (hls_v (hls_m1 l s) (hls_m2 l s) (h + 1/3))
        (max (hls_v (hls_m1 l s) (hls_m2 l s) h) (hls_v (hls_m1 l s) (hls_m2 l s) (h - 1/3))) +
        min (hls_v (hls_m1 l s) (hls_m2 l s) (h + 1/3))
        (min (hls_v (hls_m1 l s) (hls_m2 l s) h) (hls_v (hls_m1 l s) (hls_m2 l s) (h - 1/3))) =
        hls_m2 l s + hls_m1 l s := by
      rcases lt_or_le (Int.fract h) (1/6) with hr | hr
      · refine max_min_sum_3 hb1 hb2 hb3 (Or.inl ?_) (Or.inr (Or.inr ?_))
        · exact hls_v_plateau_hi _ (by rw [e1, if_pos (by linarith)]; linarith)
            (by rw [e1, if_pos (by linarith)]; linarith)
        · exact hls_v_plateau_lo _ (by rw [e3, if_pos (by linarith)]; linarith)
      rcases lt_or_le (Int.fract h) (1/3) with hr2 | hr2
      · refine max_min_sum_3 hb1 hb2 hb3 (Or.inr (Or.inl ?_)) (Or.inr (Or.inr ?_))
        · exact hls_v_plateau_hi _ (by rw [e0]; linarith) (by rw [e0]; linarith)
        · exact hls_v_plateau_lo _ (by rw [e3, if_pos (by linarith)]; linarith)
      rcases lt_or_le (Int.fract h) (1/2) with hr3 | hr3
      · refine max_min_sum_3 hb1 hb2 hb3 (Or.inr (Or.inl ?_)) (Or.inl ?_)
        · exact hls_v_plateau_hi _ (by rw [e0]; linarith) (by rw [e0]; linarith)
        · exact hls_v_plateau_lo _ (by rw [e1, if_pos (by linarith)]; linarith)
      rcases lt_or_le (Int.fract h) (2/3) with hr4 | hr4
      · refine max_min_sum_3 hb1 hb2 hb3 (Or.inr (Or.inr ?_)) (Or.inl ?_)
        · exact hls_v_plateau_hi _ (by rw [e3, if_neg (by push_neg; linarith)]; linarith)
            (by rw [e3, if_neg (by push_neg; linarith)]; linarith)
        · exact hls_v_plateau_lo _ (by rw [e1, if_pos (by linarith)]; linarith)
      rcases lt_or_le (Int.fract h) (5/6) with hr5 | hr5
      · refine max_min_sum_3 hb1 hb2 hb3 (Or.inr (Or.inr ?_)) (Or.inr (Or.inl ?_))
        · exact hls_v_plateau_hi _ (by rw [e3, if_neg (by push_neg; linarith)]; linarith)
            (by rw [e3, if_neg (by push_neg; linarith)]; linarith)
        · exact hls_v_plateau_lo _ (by rw [e0]; linarith)
      · refine max_min_sum_3 hb1 hb2 hb3 (Or.inl ?_) (Or.inr (Or.inl ?_))
        · exact hls_v_plateau_hi _ (by rw [e1, if_neg (by push_neg; linarith)]; linarith)
            (by rw [e1, if_neg (by push_neg; linarith)]; linarith)
        · exact hls_v_plateau_lo _ (by rw [e0]; linarith)
    rw [key]
    unfold hls_m1
    ring

theorem quantChannel_intCast {x : ℚ} (hx : 0 ≤ x) : (quantChannel x : ℤ) = ⌊x * 255⌋ := by
  unfold quantChannel pyTrunc
  rw [if_neg (not_lt.mpr (by positivity)), ratFloor_eq_intFloor]
  exact Int.toNat_of_nonneg (Int.floor_nonneg.mpr (by positivity))

theorem quantChannel_le_255 {x : ℚ} (hx0 : 0 ≤ x) (hx1 : x ≤ 1) : quantChannel x ≤ 255 := by
  have h := quantChannel_intCast hx0
  have h2 : ⌊x * 255⌋ ≤ 255 := by
    rw [Int.floor_le_iff]
    push_cast
    nlinarith
  omega

theorem quantChannel_mono {x y : ℚ} (hx : 0 ≤ x) (hxy : x ≤ y) :
    quantChannel x ≤ quantChannel y := by
  have h1 := quantChannel_intCast hx
  have h2 := quantChannel_intCast (le_trans hx hxy)
  have h3 : ⌊x * 255⌋ ≤ ⌊y * 255⌋ := Int.floor_le_floor (by nlinarith)
  omega

theorem quantChannel_eq_of {x : ℚ} (hx : 0 ≤ x) {n : ℕ} (h1 : (n : ℚ) ≤ x * 255)
    (h2 : x * 255 < n + 1) : quantChannel x = n := by
  have h := quantChannel_intCast hx
  have hfl : ⌊x * 255⌋ = (n : ℤ) := by
    rw [Int.floor_eq_iff]
    constructor
    · exact_mod_cast h1
    · push_cast
      exact h2
  omega

theorem pyIntHex_hexByte {n : ℕ} (hn : n ≤ 255) : pyIntHex (hexByte n) = some n := by
  obtain ⟨hv1, hh1, _, _⟩ := hexDigitLower_facts (n / 16) (by omega)
  obtain ⟨hv2, hh2, _, _⟩ := hexDigitLower_facts (n % 16) (by omega)
  unfold pyIntHex hexByte
  rw [if_pos ⟨by simp, by simp [List.all_cons, hh1, hh2]⟩]
  have : [hexDigitLower (n / 16), hexDigitLower (n % 16)].foldl
      (fun a c => 16 * a + hexCharVal c) 0 = n := by
    simp [List.foldl, hv1, hv2]
    omega
  rw [show ((⟨[hexDigitLower (n / 16), hexDigitLower (n % 16)]⟩ : String).toList)
      = [hexDigitLower (n / 16), hexDigitLower (n % 16)] from rfl, this]

/-- Parsing back an emitted hex string recovers the byte triple. -/
theorem hex_to_rgb_rgb_to_hex {r g b : ℕ} (hr : r ≤ 255) (hg : g ≤ 255) (hb : b ≤ 255) :
    hex_to_rgb (rgb_to_hex (r, g, b)) = some (r, g, b) := by
  obtain ⟨_, _, _, hne⟩ := hexDigitLower_facts (r / 16) (by omega)
  rw [show rgb_to_hex (r, g, b) = ⟨['#', hexDigitLower (r/16), hexDigitLower (r%16),
    hexDigitLower (g/16), hexDigitLower (g%16), hexDigitLower (b/16),
    hexDigitLower (b%16)]⟩ from rfl]
  unfold hex_to_rgb
  rw [show lstripHash ⟨['#', hexDigitLower (r/16), hexDigitLower (r%16), hexDigitLower (g/16),
      hexDigitLower (g%16), hexDigitLower (b/16), hexDigitLower (b%16)]⟩ =
    ⟨[hexDigitLower (r/16), hexDigitLower (r%16), hexDigitLower (g/16), hexDigitLower (g%16),
      hexDigitLower (b/16), hexDigitLower (b%16)]⟩ from by
    unfold lstripHash
    simp [List.dropWhile, hne]]
  dsimp only
  rw [show List.take 2 ((⟨[hexDigitLower (r/16), hexDigitLower (r%16), hexDigitLower (g/16),
      hexDigitLower (g%16), hexDigitLower (b/16), hexDigitLower (b%16)]⟩ : String).toList) =
      (hexByte r).toList from rfl,
    show (⟨(hexByte r).toList⟩ : String) = hexByte r from rfl, pyIntHex_hexByte hr]
  rw [show List.take 2 (List.drop 2 ((⟨[hexDigitLower (r/16), hexDigitLower (r%16),
      hexDigitLower (g/16), hexDigitLower (g%16), hexDigitLower (b/16),
      hexDigitLower (b%16)]⟩ : String).toList)) = (hexByte g).toList from rfl,
    show (⟨(hexByte g).toList⟩ : String) = hexByte g from rfl, pyIntHex_hexByte hg]
  rw [show List.take 2 (List.drop 4 ((⟨[hexDigitLower (r/16), hexDigitLower (r%16),
      hexDigitLower (g/16), hexDigitLower (g%16), hexDigitLower (b/16),
      hexDigitLower (b%16)]⟩ : String).toList)) = (hexByte b).toList from rfl,
    show (⟨(hexByte b).toList⟩ : String) = hexByte b from rfl, pyIntHex_hexByte hb]
  rfl

theorem rgb_to_hls_l (r g b : ℚ) :
    (rgb_to_hls r g b).2.1 = (min r (min g b) + max r (max g b)) / 2 := by
  unfold rgb_to_hls
  dsimp only
  split <;> rfl

/-- The lightness `hex_to_hsl` reads back from an emitted byte triple. -/
theorem lightnessOfHex_rgb_to_hex {r g b : ℕ} (hr : r ≤ 255) (hg : g ≤ 255) (hb : b ≤ 255) :
    lightnessOfHex (rgb_to_hex (r, g, b)) =
      (rgb_to_hls ((r : ℚ)/255) ((g : ℚ)/255) ((b : ℚ)/255)).2.1 * 100 := by
  unfold lightnessOfHex hex_to_hsl
  rw [hex_to_rgb_rgb_to_hex hr hg hb]
  rfl

/-- The lightness of the emitted shade tracks the requested lightness `L`
from below within `1/255` (scale `0`-`100`: within `100/255`). -/
theorem shadeOfLightness_lightness {h s L : ℚ} (hL0 : 0 ≤ L) (hL1 : L ≤ 1)
    (hs0 : 0 ≤ s) (hs1 : s ≤ 1) :
    100 * L - 100/255 ≤ lightnessOfHex (shadeOfLightness h s L) ∧
      lightnessOfHex (shadeOfLightness h s L) ≤ 100 * L := by
  obtain ⟨⟨ha0, ha1⟩, ⟨hb0, hb1⟩, ⟨hc0, hc1⟩⟩ := hls_channels_bounds (h := h) hL0 hL1 hs0 hs1
  have hsum := hls_channels_sum (h := h) hL0 hL1 hs0 hs1
  set a := (hls_to_rgb h L s).1 with hadef
  set b := (hls_to_rgb h L s).2.1 with hbdef
  set c := (hls_to_rgb h L s).2.2 with hcdef
  have hq : shadeOfLightness h s L =
      rgb_to_hex (quantChannel a, quantChannel b, quantChannel c) := rfl
  rw [hq, lightnessOfHex_rgb_to_hex (quantChannel_le_255 ha0 ha1)
    (quantChannel_le_255 hb0 hb1) (quantChannel_le_255 hc0 hc1), rgb_to_hls_l]
  have hAu : ((quantChannel a : ℕ) : ℚ)/255 ≤ a := by
    have := quantChannel_intCast ha0
    have h1 : ((quantChannel a : ℕ) : ℚ) ≤ a * 255 := by
      calc ((quantChannel a : ℕ) : ℚ) = ((⌊a * 255⌋ : ℤ) : ℚ) := by exact_mod_cast congrArg Int.cast this
        _ ≤ a * 255 := Int.floor_le _
    linarith
  have hBu : ((quantChannel b : ℕ) : ℚ)/255 ≤ b := by
    have := quantChannel_intCast hb0
    have h1 : ((quantChannel b : ℕ) : ℚ) ≤ b * 255 := by
      calc ((quantChannel b : ℕ) : ℚ) = ((⌊b * 255⌋ : ℤ) : ℚ) := by exact_mod_cast congrArg Int.cast this
        _ ≤ b * 255 := Int.floor_le _
    linarith
  have hCu : ((quantChannel c : ℕ) : ℚ)/255 ≤ c := by
    have := quantChannel_intCast hc0
    have h1 : ((quantChannel c : ℕ) : ℚ) ≤ c * 255 := by
      calc ((quantChannel c : ℕ) : ℚ) = ((⌊c * 255⌋ : ℤ) : ℚ) := by exact_mod_cast congrArg Int.cast this
        _ ≤ c * 255 := Int.floor_le _
    linarith
  have hAl : a - 1/255 ≤ ((quantChannel a : ℕ) : ℚ)/255 := by
    have := quantChannel_intCast ha0
    have h1 : a * 255 - 1 ≤ ((quantChannel a : ℕ) : ℚ) := by
      calc a * 255 - 1 ≤ ((⌊a * 255⌋ : ℤ) : ℚ) := le_of_lt (Int.sub_one_lt_floor _)
        _ = ((quantChannel a : ℕ) : ℚ) := by exact_mod_cast (congrArg Int.cast this).symm
    linarith
  have hBl : b - 1/255 ≤ ((quantChannel b : ℕ) : ℚ)/255 := by
    have := quantChannel_intCast hb0
    have h1 : b * 255 - 1 ≤ ((quantChannel b : ℕ) : ℚ) := by
      calc b * 255 - 1 ≤ ((⌊b * 255⌋ : ℤ) : ℚ) := le_of_lt (Int.sub_one_lt_floor _)
        _ = ((quantChannel b : ℕ) : ℚ) := by exact_mod_cast (congrArg Int.cast this).symm
    linarith
  have hCl : c - 1/255 ≤ ((quantChannel c : ℕ) : ℚ)/255 := by
    have := quantChannel_intCast hc0
    have h1 : c * 255 - 1 ≤ ((quantChannel c : ℕ) : ℚ) := by
      calc c * 255 - 1 ≤ ((⌊c * 255⌋ : ℤ) : ℚ) := le_of_lt (Int.sub_one_lt_floor _)
        _ = ((quantChannel c : ℕ) : ℚ) := by exact_mod_cast (congrArg Int.cast this).symm
    linarith
  constructor
  · have hmin : min a (min b c) - 1/255 ≤
        min (((quantChannel a : ℕ) : ℚ)/255) (min (((quantChannel b : ℕ) : ℚ)/255)
          (((quantChannel c : ℕ) : ℚ)/255)) := by
      calc min a (min b c) - 1/255
          = min (a - 1/255) (min (b - 1/255) (c - 1/255)) := by
            rw [min_sub_sub_right, min_sub_sub_right]
        _ ≤ _ := min_le_min hAl (min_le_min hBl hCl)
    have hmax : max a (max b c) - 1/255 ≤
        max (((quantChannel a : ℕ) : ℚ)/255) (max (((quantChannel b : ℕ) : ℚ)/255)
          (((quantChannel c : ℕ) : ℚ)/255)) := by
      calc max a (max b c) - 1/255
          = max (a - 1/255) (max (b - 1/255) (c - 1/255)) := by
            rw [max_sub_sub_right, max_sub_sub_right]
        _ ≤ _ := max_le_max hAl (max_le_max hBl hCl)
    linarith
  · have hmin : min (((quantChannel a : ℕ) : ℚ)/255) (min (((quantChannel b : ℕ) : ℚ)/255)
        (((quantChannel c : ℕ) : ℚ)/255)) ≤ min a (min b c) :=
      min_le_min hAu (min_le_min hBu hCu)
    have hmax : max (((quantChannel a : ℕ) : ℚ)/255) (max (((quantChannel b : ℕ) : ℚ)/255)
        (((quantChannel c : ℕ) : ℚ)/255)) ≤ max a (max b c) :=
      max_le_max hAu (max_le_max hBu hCu)
    linarith

/-- The lightness of the emitted shade is monotone in the requested
lightness. -/
theorem shadeOfLightness_mono {h s : ℚ} (hs0 : 0 ≤ s) (hs1 : s ≤ 1) {L1 L2 : ℚ}
    (hL10 : 0 ≤ L1) (hL : L1 ≤ L2) (hL21 : L2 ≤ 1) :
    lightnessOfHex (shadeOfLightness h s L1) ≤ lightnessOfHex (shadeOfLightness h s L2) := by
  have hL11 : L1 ≤ 1 := le_trans hL hL21
  have hL20 : 0 ≤ L2 := le_trans hL10 hL
  obtain ⟨⟨ha0, ha1⟩, ⟨hb0, hb1⟩, ⟨hc0, hc1⟩⟩ := hls_channels_bounds (h := h) hL10 hL11 hs0 hs1
  obtain ⟨⟨ha0', ha1'⟩, ⟨hb0', hb1'⟩, ⟨hc0', hc1'⟩⟩ := hls_channels_bounds (h := h) hL20 hL21 hs0 hs1
  obtain ⟨hma, hmb, hmc⟩ := hls_channels_mono (h := h) hs0 hs1 hL
  have hq1 : shadeOfLightness h s L1 = rgb_to_hex (quantChannel (hls_to_rgb h L1 s).1,
      quantChannel (hls_to_rgb h L1 s).2.1, quantChannel (hls_to_rgb h L1 s).2.2) := rfl
  have hq2 : shadeOfLightness h s L2 = rgb_to_hex (quantChannel (hls_to_rgb h L2 s).1,
      quantChannel (hls_to_rgb h L2 s).2.1, quantChannel (hls_to_rgb h L2 s).2.2) := rfl
  rw [hq1, hq2, lightnessOfHex_rgb_to_hex (quantChannel_le_255 ha0 ha1)
    (quantChannel_le_255 hb0 hb1) (quantChannel_le_255 hc0 hc1),
    lightnessOfHex_rgb_to_hex (quantChannel_le_255 ha0' ha1')
    (quantChannel_le_255 hb0' hb1') (quantChannel_le_255 hc0' hc1'), rgb_to_hls_l, rgb_to_hls_l]
  have da : ((quantChannel (hls_to_rgb h L1 s).1 : ℕ) : ℚ)/255 ≤
      ((quantChannel (hls_to_rgb h L2 s).1 : ℕ) : ℚ)/255 := by
    have := quantChannel_mono ha0 hma
    have hc : ((quantChannel (hls_to_rgb h L1 s).1 : ℕ) : ℚ) ≤
        ((quantChannel (hls_to_rgb h L2 s).1 : ℕ) : ℚ) := by exact_mod_cast this
    linarith
  have db : ((quantChannel (hls_to_rgb h L1 s).2.1 : ℕ) : ℚ)/255 ≤
      ((quantChannel (hls_to_rgb h L2 s).2.1 : ℕ) : ℚ)/255 := by
    have := quantChannel_mono hb0 hmb
    have hc : ((quantChannel (hls_to_rgb h L1 s).2.1 : ℕ) : ℚ) ≤
        ((quantChannel (hls_to_rgb h L2 s).2.1 : ℕ) : ℚ) := by exact_mod_cast this
    linarith
  have dc : ((quantChannel (hls_to_rgb h L1 s).2.2 : ℕ) : ℚ)/255 ≤
      ((quantChannel (hls_to_rgb h L2 s).2.2 : ℕ) : ℚ)/255 := by
    have := quantChannel_mono hc0 hmc
    have hc : ((quantChannel (hls_to_rgb h L1 s).2.2 : ℕ) : ℚ) ≤
        ((quantChannel (hls_to_rgb h L2 s).2.2 : ℕ) : ℚ) := by exact_mod_cast this
    linarith
  have hmin := min_le_min da (min_le_min db dc)
  have hmax := max_le_max da (max_le_max db dc)
  linarith

/-- For channels in `[0, 1]`, `rgb_to_hls` yields lightness and saturation
in `[0, 1]`. -/
theorem rgb_to_hls_range {r g b : ℚ} (hr0 : 0 ≤ r) (hr1 : r ≤ 1) (hg0 : 0 ≤ g)
    (hg1 : g ≤ 1) (hb0 : 0 ≤ b) (hb1 : b ≤ 1) :
    (0 ≤ (rgb_to_hls r g b).2.1 ∧ (rgb_to_hls r g b).2.1 ≤ 1) ∧
    (0 ≤ (rgb_to_hls r g b).2.2 ∧ (rgb_to_hls r g b).2.2 ≤ 1) := by
  have hmin0 : 0 ≤ min r (min g b) := le_min hr0 (le_min hg0 hb0)
  have hmax1 : max r (max g b) ≤ 1 := max_le hr1 (max_le hg1 hb1)
  have hmm : min r (min g b) ≤ max r (max g b) :=
    le_trans (min_le_left _ _) (le_max_left _ _)
  unfold rgb_to_hls
  dsimp only
  split
  · next heq =>
    constructor
    · constructor <;> [positivity; linarith]
    · norm_num
  · next hne =>
    have hlt : min r (min g b) < max r (max g b) := lt_of_le_of_ne hmm hne
    dsimp only
    refine ⟨⟨by linarith, by linarith⟩, ?_⟩
    split
    · next hl =>
      have hden : 0 < max r (max g b) + min r (min g b) := by nlinarith
      constructor
      · exact div_nonneg (by linarith) (le_of_lt hden)
      · rw [div_le_one hden]
        linarith
    · next hl =>
      have hden : 0 < 2 - max r (max g b) - min r (min g b) := by nlinarith
      constructor
      · exact div_nonneg (by linarith) (le_of_lt hden)
      · rw [div_le_one hden]
        linarith

theorem lighterLightness_bounds {l : ℚ} (hl0 : 0 ≤ l) (ratio : ℚ) :
    0 ≤ lighterLightness l ratio ∧ lighterLightness l ratio ≤ 1 := by
  unfold lighterLightness
  constructor
  · exact le_min (by norm_num) (le_trans (by linarith) (le_max_left _ _))
  · exact le_trans (min_le_left _ _) (by norm_num)

theorem darkerLightness_bounds {l : ℚ} (hl1 : l ≤ 1) (ratio : ℚ) :
    0 ≤ darkerLightness l ratio ∧ darkerLightness l ratio ≤ 1 := by
  unfold darkerLightness
  constructor
  · exact le_trans (by norm_num) (le_max_left _ _)
  · exact max_le (by norm_num) (le_trans (min_le_left _ _) (by linarith))

theorem lighterLightness_anti {l : ℚ} (hl1 : l ≤ 1) {r1 r2 : ℚ} (hr : r1 ≤ r2) :
    lighterLightness l r2 ≤ lighterLightness l r1 := by
  unfold lighterLightness
  exact min_le_min le_rfl (max_le_max le_rfl (by nlinarith))

theorem darkerLightness_anti {l : ℚ} (hl0 : 0 ≤ l) {r1 r2 : ℚ} (hr : r1 ≤ r2) :
    darkerLightness l r2 ≤ darkerLightness l r1 := by
  unfold darkerLightness
  exact max_le_max le_rfl (min_le_min le_rfl (by nlinarith))

theorem lighterLightness_ge {l : ℚ} (hl : l ≤ 49/50) (ratio : ℚ) :
    l + 1/100 ≤ lighterLightness l ratio := by
  unfold lighterLightness
  refine le_min (by norm_num; linarith) ?_
  exact le_trans (by norm_num) (le_max_left _ _)

theorem darkerLightness_le {l : ℚ} (hl : 1/50 ≤ l) (ratio : ℚ) :
    darkerLightness l ratio ≤ l - 1/100 := by
  unfold darkerLightness
  exact max_le (by linarith) (le_trans (min_le_left _ _) (by norm_num))

theorem generate_shades_explicit (hx : String) (r g b : ℕ)
    (hparse : hex_to_rgb hx = some (r, g, b)) :
    generate_shades hx = some
      [("50", shadeOfLightness (baseHls r g b).1 (baseHls r g b).2.2
          (lighterLightness (baseHls r g b).2.1 0.05)),
       ("100", shadeOfLightness (baseHls r g b).1 (baseHls r g b).2.2
          (lighterLightness (baseHls r g b).2.1 0.15)),
       ("200", shadeOfLightness (baseHls r g b).1 (baseHls r g b).2.2
          (lighterLightness (baseHls r g b).2.1 0.30)),
       ("300", shadeOfLightness (baseHls r g b).1 (baseHls r g b).2.2
          (lighterLightness (baseHls r g b).2.1 0.50)),
       ("400", shadeOfLightness (baseHls r g b).1 (baseHls r g b).2.2
          (lighterLightness (baseHls r g b).2.1 0.70)),
       ("500", hx),
       ("600", shadeOfLightness (baseHls r g b).1 (baseHls r g b).2.2
          (darkerLightness (baseHls r g b).2.1 0.30)),
       ("700", shadeOfLightness (baseHls r g b).1 (baseHls r g b).2.2
          (darkerLightness (baseHls r g b).2.1 0.50)),
       ("800", shadeOfLightness (baseHls r g b).1 (baseHls r g b).2.2
          (darkerLightness (baseHls r g b).2.1 0.70)),
       ("900", shadeOfLightness (baseHls r g b).1 (baseHls r g b).2.2
          (darkerLightness (baseHls r g b).2.1 0.85))] := by
  rw [generate_shades, hparse]
  rfl

/-- The base hex's own read-back lightness is `100` times the `base_l` the
shade generator works with. -/
theorem lightnessOfHex_base (hx : String) (r g b : ℕ)
    (hparse : hex_to_rgb hx = some (r, g, b)) :
    lightnessOfHex hx = (baseHls r g b).2.1 * 100 := by
  unfold lightnessOfHex hex_to_hsl baseHls
  rw [hparse]
  rfl

/-- C2, amended. For every base color whose lightness `base_l` lies in
`[0.02, 0.98]`, the ramp has exactly the ten canonical keys in ascending
order and read-back lightness non-strictly decreasing from shade 50 to
shade 900 — in particular lighter steps (50-400) are at least as light as
the base and darker steps (600-900) at most as light. (Outside that
lightness band the `±0.01` clamps can push a lighter shade below the base
or a darker one above it — see the `#ffffff` counterexample.) -/
theorem generate_shades_monotone_ramp (hx : String) (r g b : ℕ)
    (hparse : hex_to_rgb hx = some (r, g, b)) (hr : r ≤ 255) (hg : g ≤ 255) (hb : b ≤ 255)
    (hllo : 1/50 ≤ (baseHls r g b).2.1) (hlhi : (baseHls r g b).2.1 ≤ 49/50) :
    ∃ s50 s100 s200 s300 s400 s600 s700 s800 s900,
      generate_shades hx = some [("50", s50), ("100", s100), ("200", s200), ("300", s300),
        ("400", s400), ("500", hx), ("600", s600), ("700", s700), ("800", s800),
        ("900", s900)] ∧
      lightnessOfHex s100 ≤ lightnessOfHex s50 ∧
      lightnessOfHex s200 ≤ lightnessOfHex s100 ∧
      lightnessOfHex s300 ≤ lightnessOfHex s200 ∧
      lightnessOfHex s400 ≤ lightnessOfHex s300 ∧
      lightnessOfHex hx ≤ lightnessOfHex s400 ∧
      lightnessOfHex s600 ≤ lightnessOfHex hx ∧
      lightnessOfHex s700 ≤ lightnessOfHex s600 ∧
      lightnessOfHex s800 ≤ lightnessOfHex s700 ∧
      lightnessOfHex s900 ≤ lightnessOfHex s800 := by
  have hr0 : (0 : ℚ) ≤ (r : ℚ) / 255 := by positivity
  have hr1 : (r : ℚ) / 255 ≤ 1 := by
    rw [div_le_one (by norm_num)]
    exact_mod_cast le_trans (Nat.cast_le.mpr hr) (by norm_num)
  have hg0 : (0 : ℚ) ≤ (g : ℚ) / 255 := by positivity
  have hg1 : (g : ℚ) / 255 ≤ 1 := by
    rw [div_le_one (by norm_num)]
    exact_mod_cast le_trans (Nat.cast_le.mpr hg) (by norm_num)
  have hb0 : (0 : ℚ) ≤ (b : ℚ) / 255 := by positivity
  have hb1 : (b : ℚ) / 255 ≤ 1 := by
    rw [div_le_one (by norm_num)]
    exact_mod_cast le_trans (Nat.cast_le.mpr hb) (by norm_num)
  obtain ⟨⟨hl0, hl1⟩, hs0, hs1⟩ :
      (0 ≤ (baseHls r g b).2.1 ∧ (baseHls r g b).2.1 ≤ 1) ∧
        (0 ≤ (baseHls r g b).2.2 ∧ (baseHls r g b).2.2 ≤ 1) :=
    rgb_to_hls_range hr0 hr1 hg0 hg1 hb0 hb1
  have hbase := lightnessOfHex_base hx r g b hparse
  refine ⟨_, _, _, _, _, _, _, _, _, generate_shades_explicit hx r g b hparse,
    ?_, ?_, ?_, ?_, ?_, ?_, ?_, ?_, ?_⟩
  · exact shadeOfLightness_mono hs0 hs1 (lighterLightness_bounds hl0 _).1
      (lighterLightness_anti hl1 (by norm_num)) (lighterLightness_bounds hl0 _).2
  · exact shadeOfLightness_mono hs0 hs1 (lighterLightness_bounds hl0 _).1
      (lighterLightness_anti hl1 (by norm_num)) (lighterLightness_bounds hl0 _).2
  · exact shadeOfLightness_mono hs0 hs1 (lighterLightness_bounds hl0 _).1
      (lighterLightness_anti hl1 (by norm_num)) (lighterLightness_bounds hl0 _).2
  · exact shadeOfLightness_mono hs0 hs1 (lighterLightness_bounds hl0 _).1
      (lighterLightness_anti hl1 (by norm_num)) (lighterLightness_bounds hl0 _).2
  · have hges := (shadeOfLightness_lightness (h := (baseHls r g b).1)
      (s := (baseHls r g b).2.2)
      (lighterLightness_bounds hl0 0.70).1 (lighterLightness_bounds hl0 0.70).2 hs0 hs1).1
    have hge := lighterLightness_ge hlhi (l := (baseHls r g b).2.1) 0.70
    rw [hbase]
    linarith
  · have hles := (shadeOfLightness_lightness (h := (baseHls r g b).1)
      (s := (baseHls r g b).2.2)
      (darkerLightness_bounds hl1 0.30).1 (darkerLightness_bounds hl1 0.30).2 hs0 hs1).2
    have hle := darkerLightness_le hllo (l := (baseHls r g b).2.1) 0.30
    rw [hbase]
    linarith
  · exact shadeOfLightness_mono hs0 hs1 (darkerLightness_bounds hl1 _).1
      (darkerLightness_anti hl0 (by norm_num)) (darkerLightness_bounds hl1 _).2
  · exact shadeOfLightness_mono hs0 hs1 (darkerLightness_bounds hl1 _).1
      (darkerLightness_anti hl0 (by norm_num)) (darkerLightness_bounds hl1 _).2
  · exact shadeOfLightness_mono hs0 hs1 (darkerLightness_bounds hl1 _).1
      (darkerLightness_anti hl0 (by norm_num)) (darkerLightness_bounds hl1 _).2

/-- Witness for C2 at the mid-gray `#808080` (base lightness `128/255`). -/
theorem generate_shades_monotone_ramp_witness :
    ∃ s50 s100 s200 s300 s400 s600 s700 s800 s900,
      generate_shades "#808080" = some [("50", s50), ("100", s100), ("200", s200),
        ("300", s300), ("400", s400), ("500", "#808080"), ("600", s600), ("700", s700),
        ("800", s800), ("900", s900)] ∧
      lightnessOfHex s100 ≤ lightnessOfHex s50 ∧
      lightnessOfHex s200 ≤ lightnessOfHex s100 ∧
      lightnessOfHex s300 ≤ lightnessOfHex s200 ∧
      lightnessOfHex s400 ≤ lightnessOfHex s300 ∧
      lightnessOfHex "#808080" ≤ lightnessOfHex s400 ∧
      lightnessOfHex s600 ≤ lightnessOfHex "#808080" ∧
      lightnessOfHex s700 ≤ lightnessOfHex s600 ∧
      lightnessOfHex s800 ≤ lightnessOfHex s700 ∧
      lightnessOfHex s900 ≤ lightnessOfHex s800 := by
  have hbl : (baseHls 128 128 128).2.1 = 128/255 := by
    unfold baseHls
    rw [rgb_to_hls_l]
    norm_num [min_self, max_self]
  exact generate_shades_monotone_ramp "#808080" 128 128 128 rfl (by norm_num) (by norm_num)
    (by norm_num) (by rw [hbl]; norm_num) (by rw [hbl]; norm_num)

/-- `hls_to_rgb` at saturation `0` is the gray `(L, L, L)`, so such a shade
is a quantized gray. -/
theorem shadeOfLightness_gray (h L : ℚ) :
    shadeOfLightness h 0 L = rgb_to_hex (quantChannel L, quantChannel L, quantChannel L) := by
  unfold shadeOfLightness hls_to_rgb
  rw [if_pos rfl]

/-- Helper: the full evaluation of `generate_shades` at `#ffffff` (base
lightness `1`, saturation `0`): every lighter shade clamps to lightness
`0.99` and quantizes to `#fcfcfc`. CPython float arithmetic produces the
same bytes at this input. -/
theorem generate_shades_white :
    generate_shades "#ffffff" = some
      [("50", "#fcfcfc"), ("100", "#fcfcfc"), ("200", "#fcfcfc"), ("300", "#fcfcfc"),
       ("400", "#fcfcfc"), ("500", "#ffffff"), ("600", "#b2b2b2"), ("700", "#7f7f7f"),
       ("800", "#4c4c4c"), ("900", "#262626")] := by
  have hhls : baseHls 255 255 255 = (0, 1, 0) := by
    have hone : ((255 : ℕ) : ℚ)/255 = 1 := by norm_num
    unfold baseHls
    rw [hone]
    unfold rgb_to_hls
    norm_num [min_self, max_self]
  have hc1 : (baseHls 255 255 255).1 = 0 := by rw [hhls]
  have hc2 : (baseHls 255 255 255).2.1 = 1 := by rw [hhls]
  have hc3 : (baseHls 255 255 255).2.2 = 0 := by rw [hhls]
  have hlighter : ∀ ρ : ℚ, lighterLightness 1 ρ = 0.99 := by
    intro ρ
    unfold lighterLightness
    norm_num [min_def, max_def]
  have hd30 : darkerLightness 1 0.30 = 0.7 := by
    unfold darkerLightness
    norm_num [min_def, max_def]
  have hd50 : darkerLightness 1 0.50 = 0.5 := by
    unfold darkerLightness
    norm_num [min_def, max_def]
  have hd70 : darkerLightness 1 0.70 = 0.3 := by
    unfold darkerLightness
    norm_num [min_def, max_def]
  have hd85 : darkerLightness 1 0.85 = 0.15 := by
    unfold darkerLightness
    norm_num [min_def, max_def]
  have hq99 : quantChannel 0.99 = 252 := quantChannel_eq_of (by norm_num) (by norm_num) (by norm_num)
  have hq7 : quantChannel 0.7 = 178 := quantChannel_eq_of (by norm_num) (by norm_num) (by norm_num)
  have hq5 : quantChannel 0.5 = 127 := quantChannel_eq_of (by norm_num) (by norm_num) (by norm_num)
  have hq3 : quantChannel 0.3 = 76 := quantChannel_eq_of (by norm_num) (by norm_num) (by norm_num)
  have hq15 : quantChannel 0.15 = 38 := quantChannel_eq_of (by norm_num) (by norm_num) (by norm_num)
  rw [generate_shades_explicit "#ffffff" 255 255 255 rfl, hc1, hc2, hc3,
    hlighter 0.05, hlighter 0.15, hlighter 0.30, hlighter 0.50, hlighter 0.70,
    hd30, hd50, hd70, hd85, shadeOfLightness_gray 0 0.99, shadeOfLightness_gray 0 0.7,
    shadeOfLightness_gray 0 0.5, shadeOfLightness_gray 0 0.3, shadeOfLightness_gray 0 0.15,
    hq99, hq7, hq5, hq3, hq15]
  rfl

/-- Counterexample to C2 as stated: at base `#ffffff` (lightness `100`),
every lighter shade quantizes to `#fcfcfc`, whose lightness `≈ 98.8` is
*below* the base's `100` — the ramp is not monotone from shade 50 through
shade 500 and the lighter steps (50-400) are darker than the base. -/
theorem generate_shades_ramp_violation_at_white :
    generate_shades "#ffffff" = some
      [("50", "#fcfcfc"), ("100", "#fcfcfc"), ("200", "#fcfcfc"), ("300", "#fcfcfc"),
       ("400", "#fcfcfc"), ("500", "#ffffff"), ("600", "#b2b2b2"), ("700", "#7f7f7f"),
       ("800", "#4c4c4c"), ("900", "#262626")] ∧
    lightnessOfHex "#fcfcfc" < lightnessOfHex "#ffffff" := by
  refine ⟨generate_shades_white, ?_⟩
  have e1 : lightnessOfHex "#fcfcfc" = (baseHls 252 252 252).2.1 * 100 :=
    lightnessOfHex_base "#fcfcfc" 252 252 252 rfl
  have e2 : lightnessOfHex "#ffffff" = (baseHls 255 255 255).2.1 * 100 :=
    lightnessOfHex_base "#ffffff" 255 255 255 rfl
  have c252 : (baseHls 252 252 252).2.1 = 252/255 := by
    unfold baseHls
    rw [rgb_to_hls_l]
    norm_num [min_self, max_self]
  have c255 : (baseHls 255 255 255).2.1 = 1 := by
    unfold baseHls
    rw [rgb_to_hls_l]
    norm_num [min_self, max_self]
  rw [e1, e2, c252, c255]
  norm_num

/-- Re-prefixing `'#'` to the `lstrip('#')` of an emitted hex string is the
identity (the first digit of a byte value `≤ 255` is never `'#'`). -/
theorem hash_lstripHash_rgb_to_hex {t : ℕ × ℕ × ℕ} (h1 : t.1 ≤ 255) :
    "#" ++ lstripHash (rgb_to_hex t) = rgb_to_hex t := by
  obtain ⟨_, _, _, hne⟩ := hexDigitLower_facts (t.1 / 16) (by omega)
  have hs : lstripHash (rgb_to_hex t) =
      ⟨[hexDigitLower (t.1/16), hexDigitLower (t.1%16), hexDigitLower (t.2.1/16),
        hexDigitLower (t.2.1%16), hexDigitLower (t.2.2/16), hexDigitLower (t.2.2%16)]⟩ := by
    unfold lstripHash
    rw [show (rgb_to_hex t).toList = '#' :: [hexDigitLower (t.1/16), hexDigitLower (t.1%16),
      hexDigitLower (t.2.1/16), hexDigitLower (t.2.1%16), hexDigitLower (t.2.2/16),
      hexDigitLower (t.2.2%16)] from rfl]
    simp [List.dropWhile, hne]
  rw [hs]
  rfl

/-- The same for a valid (canonical) hex string. -/
theorem hash_lstripHash_valid {s : String} (hv : IsValidHexString s) :
    "#" ++ lstripHash s = s := by
  obtain ⟨cs, htl, hlen, hall⟩ := hv
  cases cs with
  | nil => simp at hlen
  | cons c rest =>
    have hc : c ≠ '#' := lowerHexChar_ne_hash (hall c (by simp))
    have hstrip : lstripHash s = ⟨c :: rest⟩ := by
      unfold lstripHash
      rw [htl]
      simp [List.dropWhile, hc]
    have hs : s = ⟨'#' :: c :: rest⟩ := by
      have := congrArg (fun l : List Char => (⟨l⟩ : String)) htl
      simpa using this
    rw [hstrip, hs]
    rfl

/-- Every value of a valid entry's shade ramp starts with exactly one
`'#'`: stripping it and re-prefixing `'#'` is the identity. -/
theorem generate_shades_value_hash (hx : String) (hv : IsValidHexString hx) :
    ∃ shades, generate_shades hx = some shades ∧
      ∀ sh ∈ shades, "#" ++ lstripHash sh.2 = sh.2 := by
  obtain ⟨r, g, b, hp, _, hr, hg, hb⟩ := validHex_roundtrip hx hv
  have hr0 : (0 : ℚ) ≤ (r : ℚ) / 255 := by positivity
  have hr1 : (r : ℚ) / 255 ≤ 1 := by
    rw [div_le_one (by norm_num)]
    exact_mod_cast le_trans (Nat.cast_le.mpr hr) (by norm_num)
  have hg0 : (0 : ℚ) ≤ (g : ℚ) / 255 := by positivity
  have hg1 : (g : ℚ) / 255 ≤ 1 := by
    rw [div_le_one (by norm_num)]
    exact_mod_cast le_trans (Nat.cast_le.mpr hg) (by norm_num)
  have hb0 : (0 : ℚ) ≤ (b : ℚ) / 255 := by positivity
  have hb1 : (b : ℚ) / 255 ≤ 1 := by
    rw [div_le_one (by norm_num)]
    exact_mod_cast le_trans (Nat.cast_le.mpr hb) (by norm_num)
  obtain ⟨⟨hl0, hl1⟩, hs0, hs1⟩ :
      (0 ≤ (baseHls r g b).2.1 ∧ (baseHls r g b).2.1 ≤ 1) ∧
        (0 ≤ (baseHls r g b).2.2 ∧ (baseHls r g b).2.2 ≤ 1) :=
    rgb_to_hls_range hr0 hr1 hg0 hg1 hb0 hb1
  have hshade : ∀ L : ℚ, 0 ≤ L → L ≤ 1 →
      "#" ++ lstripHash (shadeOfLightness (baseHls r g b).1 (baseHls r g b).2.2 L) =
        shadeOfLightness (baseHls r g b).1 (baseHls r g b).2.2 L := by
    intro L hL0 hL1
    obtain ⟨⟨ha0, ha1⟩, _, _⟩ :=
      hls_channels_bounds (h := (baseHls r g b).1) (s := (baseHls r g b).2.2) hL0 hL1 hs0 hs1
    exact hash_lstripHash_rgb_to_hex
      (t := (quantChannel (hls_to_rgb (baseHls r g b).1 L (baseHls r g b).2.2).1,
        quantChannel (hls_to_rgb (baseHls r g b).1 L (baseHls r g b).2.2).2.1,
        quantChannel (hls_to_rgb (baseHls r g b).1 L (baseHls r g b).2.2).2.2))
      (quantChannel_le_255 ha0 ha1)
  refine ⟨_, generate_shades_explicit hx r g b hp, ?_⟩
  intro sh hsh
  simp only [List.mem_cons, List.not_mem_nil, or_false] at hsh
  rcases hsh with rfl | rfl | rfl | rfl | rfl | rfl | rfl | rfl | rfl | rfl
  · exact hshade _ (lighterLightness_bounds hl0 _).1 (lighterLightness_bounds hl0 _).2
  · exact hshade _ (lighterLightness_bounds hl0 _).1 (lighterLightness_bounds hl0 _).2
  · exact hshade _ (lighterLightness_bounds hl0 _).1 (lighterLightness_bounds hl0 _).2
  · exact hshade _ (lighterLightness_bounds hl0 _).1 (lighterLightness_bounds hl0 _).2
  · exact hshade _ (lighterLightness_bounds hl0 _).1 (lighterLightness_bounds hl0 _).2
  · exact hash_lstripHash_valid hv
  · exact hshade _ (darkerLightness_bounds hl1 _).1 (darkerLightness_bounds hl1 _).2
  · exact hshade _ (darkerLightness_bounds hl1 _).1 (darkerLightness_bounds hl1 _).2
  · exact hshade _ (darkerLightness_bounds hl1 _).1 (darkerLightness_bounds hl1 _).2
  · exact hshade _ (darkerLightness_bounds hl1 _).1 (darkerLightness_bounds hl1 _).2

theorem str_append_assoc (a b c : String) : a ++ b ++ c = a ++ (b ++ c) :=
  String.ext (by simp [List.append_assoc])

theorem str_append_cancel {a c b d : String} (h : a ++ b ++ c = a ++ d ++ c) :
    b = d := by
  apply String.ext
  have hd : a.data ++ b.data ++ c.data = a.data ++ d.data ++ c.data :=
    congrArg String.data h
  rw [List.append_assoc, List.append_assoc] at hd
  exact List.append_cancel_right (List.append_cancel_left hd)

/-- C4, amended. For every color list of valid entries, the Tailwind-config
renderer emits exactly the rendering of the nested mapping from each
color's slug to a mapping from each of the ten shade keys to that shade's
hex value — *with* its `'#'` prefix (the renderer strips the `'#'` and
immediately writes a literal `'#'` back). -/
theorem generate_tailwind_config_spec (colors : List ColorEntry)
    (hv : ∀ c ∈ colors, IsValidHexString c.hex) :
    ∃ m, tailwindMapping colors = some m ∧
      generate_tailwind_config colors = some (renderTailwindMapping m) := by
  induction colors with
  | nil => exact ⟨[], rfl, rfl⟩
  | cons c cs ih =>
    obtain ⟨m, hm, hcfg⟩ := ih fun x hx => hv x (List.mem_cons_of_mem _ hx)
    obtain ⟨shades, hsh, hvals⟩ := generate_shades_value_hash c.hex (hv c (List.mem_cons_self _ _))
    have hmapline : (shades.map fun sh =>
        "          '" ++ sh.1 ++ "': '#" ++ lstripHash sh.2 ++ "',\n") =
        shades.map fun sh => "          '" ++ sh.1 ++ "': '" ++ sh.2 ++ "',\n" := by
      refine List.map_congr_left fun sh hs => ?_
      conv_rhs => rw [← hvals sh hs]
      exact String.ext (by simp [List.append_assoc])
    have hblock : tailwindColorBlock c = some ("        '" ++ slugOf c.name ++ "': \x7b\n"
        ++ strConcat (shades.map fun sh =>
            "          '" ++ sh.1 ++ "': '" ++ sh.2 ++ "',\n")
        ++ "        \x7d,\n") := by
      unfold tailwindColorBlock
      rw [hsh, ← hmapline]
      rfl
    refine ⟨(slugOf c.name, shades) :: m, ?_, ?_⟩
    · unfold tailwindMapping at hm ⊢
      rw [List.mapM_cons, hsh, hm]
      rfl
    · obtain ⟨blocks, hblocks, hrender⟩ :
          ∃ blocks, cs.mapM tailwindColorBlock = some blocks ∧
            strConcat blocks = strConcat (m.map fun cm =>
              "        '" ++ cm.1 ++ "': \x7b\n"
              ++ strConcat (cm.2.map fun sh => "          '" ++ sh.1 ++ "': '" ++ sh.2 ++ "',\n")
              ++ "        \x7d,\n") := by
        unfold generate_tailwind_config at hcfg
        cases hbl : cs.mapM tailwindColorBlock with
        | none => rw [hbl] at hcfg; exact absurd hcfg (by simp)
        | some blocks =>
          rw [hbl] at hcfg
          have h2 : tailwindConfigHeader ++ strConcat blocks ++ tailwindConfigFooter =
              renderTailwindMapping m := by simpa using hcfg
          unfold renderTailwindMapping at h2
          refine ⟨blocks, rfl, str_append_cancel h2⟩
      unfold generate_tailwind_config
      rw [List.mapM_cons, hblock, hblocks]
      show some _ = some _
      congr 1
      unfold renderTailwindMapping
      rw [List.map_cons]
      show tailwindConfigHeader ++ (_ ++ strConcat blocks) ++ tailwindConfigFooter = _
      rw [hrender]
      rfl

/-- Witness for C4's amended theorem at the concrete entry `whiteEntry`. -/
theorem generate_tailwind_config_spec_witness :
    ∃ m, tailwindMapping [whiteEntry] = some m ∧
      generate_tailwind_config [whiteEntry] = some (renderTailwindMapping m) :=
  generate_tailwind_config_spec [whiteEntry] (by
    intro c hc
    rw [List.mem_singleton] at hc
    subst hc
    exact ⟨['f', 'f', 'f', 'f', 'f', 'f'], rfl, rfl, by decide⟩)

set_option maxRecDepth 8000 in
/-- Counterexample to C4 as stated: at the concrete entry `whiteEntry`, the
emitted config differs from the rendering of the nested mapping whose
values have the `'#'` prefix removed — the renderer emits every shade value
*with* a `'#'` prefix (e.g. `'500': '#ffffff'`). -/
theorem generate_tailwind_config_not_hashless :
    generate_tailwind_config [whiteEntry] ≠
      (tailwindMappingNoHash [whiteEntry]).map renderTailwindMapping := by
  unfold generate_tailwind_config tailwindMappingNoHash tailwindColorBlock
  simp only [List.mapM_cons, List.mapM_nil,
    show whiteEntry.hex = "#ffffff" from rfl, generate_shades_white]
  decide

set_option maxRecDepth 8000 in
/-- C10. For every non-empty color list, the page `generate_html_preview`
produces contains the palette-image section — the copy and download buttons
referencing the relative file `palette.png` — unconditionally: the function
takes no image-backend input at all (`HAS_PIL` is consulted only by the
image writers in `main`), so the page may reference an image file that was
never produced. -/
theorem html_preview_references_palette_png (colors : List ColorEntry) (s : String)
    (hne : colors ≠ []) (hgen : generate_html_preview colors = some s) :
    (∃ pre post, s = pre ++ paletteImageSection ++ post) ∧
    ∃ a b, paletteImageSection = a ++ "palette.png" ++ b := by
  constructor
  · unfold generate_html_preview at hgen
    cases hb : colors.mapM colorBlockHtml with
    | none => rw [hb] at hgen; exact absurd hgen (by simp)
    | some blocks =>
      rw [hb] at hgen
      have hs : htmlHead ++ strConcat blocks
          ++ (if colors.length > 0 then paletteImageSection else "") ++ htmlFooter = s := by
        simpa using hgen
      rw [if_pos (by simpa using List.length_pos.mpr hne)] at hs
      exact ⟨htmlHead ++ strConcat blocks, htmlFooter, hs.symm⟩
  · refine ⟨"\n    </div>\n    <div class=\"palette-image-section\">\n        <h2>PALETTE IMAGE</h2>\n        <div class=\"image-actions\">\n            <button class=\"btn\" onclick=\"copyImage('",
      "')\">COPY IMAGE</button>\n            <button class=\"btn\" onclick=\"downloadImage('palette.png', 'color_palette.png')\">DOWNLOAD IMAGE</button>\n        </div>\n    </div>\n", ?_⟩
    rfl

/-- Witness for C10 at the single-entry list `[whiteEntry]`. -/
theorem html_preview_references_palette_png_witness :
    ∃ s, generate_html_preview [whiteEntry] = some s ∧
      ((∃ pre post, s = pre ++ paletteImageSection ++ post) ∧
        ∃ a b, paletteImageSection = a ++ "palette.png" ++ b) := by
  obtain ⟨s, hs⟩ : ∃ s, generate_html_preview [whiteEntry] = some s := by
    unfold generate_html_preview colorBlockHtml
    simp only [List.mapM_cons, List.mapM_nil,
      show whiteEntry.hex = "#ffffff" from rfl, generate_shades_white]
    exact ⟨_, rfl⟩
  exact ⟨s, hs, html_preview_references_palette_png [whiteEntry] s (by simp) hs⟩

/-- C6. If `colors.txt` does not exist, or parsing its content yields no
valid record, `main` reports the condition and returns without writing any
output file (text or image). -/
theorem main_aborts_without_outputs (colors_txt : Option String) (has_pil : Bool)
    (h : colors_txt = none ∨
      ∃ content, colors_txt = some content ∧ parse_colors_file content = []) :
    ∃ res, main_run colors_txt has_pil = some res ∧ res.files = [] ∧ res.images = [] ∧
      ("Error: colors.txt not found!" ∈ res.messages ∨
        "No colors found in colors.txt!" ∈ res.messages) := by
  rcases h with rfl | ⟨content, rfl, hempty⟩
  · exact ⟨_, rfl, rfl, rfl, Or.inl (by simp)⟩
  · have hmain : main_run (some content) has_pil =
        some ⟨["Parsing colors from colors.txt...", "No colors found in colors.txt!"],
          [], []⟩ := by
      simp only [main_run, hempty]
      rfl
    exact ⟨_, hmain, rfl, rfl, Or.inr (by simp)⟩

/-- Witness for C6: a `colors.txt` holding only a comment and blank lines
produces no output file and reports "No colors found". -/
theorem main_aborts_without_outputs_witness :
    ∃ res, main_run (some "# a palette with no colors\n\n") true = some res ∧
      res.files = [] ∧ res.images = [] ∧
      ("Error: colors.txt not found!" ∈ res.messages ∨
        "No colors found in colors.txt!" ∈ res.messages) :=
  main_aborts_without_outputs (some "# a palette with no colors\n\n") true
    (Or.inr ⟨"# a palette with no colors\n\n", rfl, rfl⟩)

end Colors
